import Mathlib

/-!
Verification development for the orbital-risk-authority backend core
(catalog loading, orbital classification, pressure indices, snapshot
building, history store, delta computation, history validation).

Modelling conventions:
* Python machine floats are modelled as exact rationals (`ℚ`); every
  float produced by this code base is obtained from decimal literals,
  integer counts and the arithmetic written in the source, so the
  rational model tracks the source expressions exactly (binary
  representation error is not modelled).
* Python `round(x, n)` is round-half-to-even (`roundHalfEven` below);
  Python `int(x)` truncates toward zero (`pyInt`).
* The mean-motion → altitude derivation involves π and a cube root, so
  it is modelled over `ℝ`.
* Fallible code paths (uncaught exceptions) are modelled with `Option`
  or `Except`.
-/

namespace ORA

/-- Python `int(x)` applied to a numeric value: truncation toward zero. -/
def pyInt (q : ℚ) : ℤ := if 0 ≤ q then ⌊q⌋ else ⌈q⌉

/-- Rounding of a rational to the nearest integer with ties going to the
even neighbour, the behaviour of Python's builtin `round`. -/
def roundHalfEven (q : ℚ) : ℤ :=
  if q - (⌊q⌋ : ℚ) < 1/2 then ⌊q⌋
  else if 1/2 < q - (⌊q⌋ : ℚ) then ⌊q⌋ + 1
  else if ⌊q⌋ % 2 = 0 then ⌊q⌋ else ⌊q⌋ + 1

/-- Python `round(x, n)` for `n` decimal digits. -/
def pyRound (n : ℕ) (q : ℚ) : ℚ := (roundHalfEven (q * (10 ^ n : ℚ)) : ℚ) / (10 ^ n : ℚ)

/-- Orbit regimes named by the classifier (`None` in the source stands
for "unclassified" and is modelled by `Option.none`). -/
inductive Regime
  | LEO
  | MEO
  | GEO
deriving DecidableEq, Repr

/-- `backend/catalog.py`, `classify_regime` (the final definition in the
module, which is the binding one in Python): classify an orbit regime
from mean motion (rev/day) and eccentricity. -/
def classify_regime (mean_motion_rev_per_day eccentricity : ℚ) : Option Regime :=
  if mean_motion_rev_per_day ≤ 0 then none
  else if 11.25 ≤ mean_motion_rev_per_day ∧ eccentricity < 0.25 then some .LEO
  else if 0.95 ≤ mean_motion_rev_per_day ∧ mean_motion_rev_per_day ≤ 1.05 ∧ eccentricity < 0.25 then
    some .GEO
  else if 1.05 < mean_motion_rev_per_day ∧ mean_motion_rev_per_day < 11.25 ∧ eccentricity < 0.25 then
    some .MEO
  else none

/-- The classification rule exactly as the specification words it
(rule list with first-match-wins, no explicit `mean_motion ≤ 0` guard);
used to compare the source against the spec. -/
def classifyRegimeClaim (mm ecc : ℚ) : Option Regime :=
  if 11.25 ≤ mm ∧ ecc < 0.25 then some .LEO
  else if 0.95 ≤ mm ∧ mm ≤ 1.05 ∧ ecc < 0.25 then some .GEO
  else if 1.05 < mm ∧ mm < 11.25 ∧ ecc < 0.25 then some .MEO
  else none

/-- `backend/main.py`, `compute_zone_pressure`: the pressure index of a
count relative to a cohort maximum. -/
def compute_zone_pressure (count max_count : ℤ) : ℚ :=
  if max_count ≤ 0 then 0
  else pyRound 1 (min 100 ((count : ℚ) / (max_count : ℚ) * 100))

/-! ### Orbital mechanics: mean motion → altitude (`backend/catalog.py`) -/

/-- Earth mean radius in km (`EARTH_RADIUS_KM` in `backend/catalog.py`). -/
def EARTH_RADIUS_KM : ℝ := 6378.137

/-- Earth gravitational parameter in km³/s² (`MU_EARTH_KM3_S2`). -/
def MU_EARTH_KM3_S2 : ℝ := 398600.4418

/-- `n_rad_s` inside `mean_motion_to_altitude_km`: mean motion in rad/s. -/
noncomputable def nRadS (mm : ℝ) : ℝ := mm * 2 * Real.pi / 86400

/-- `a_km` inside `mean_motion_to_altitude_km`: circular-orbit semi-major
axis from Kepler's third law. -/
noncomputable def aKm (mm : ℝ) : ℝ :=
  (MU_EARTH_KM3_S2 / (nRadS mm) ^ 2) ^ ((1 : ℝ) / 3)

/-- `alt_km` inside `mean_motion_to_altitude_km`: the closed-form altitude
before the sanity-band check. -/
noncomputable def altKmVal (mm : ℝ) : ℝ := aKm mm - EARTH_RADIUS_KM

/-- `backend/catalog.py`, `mean_motion_to_altitude_km`. -/
noncomputable def mean_motion_to_altitude_km (mm : ℝ) : Option ℝ :=
  if mm ≤ 0 then none
  else if nRadS mm ≤ 0 then none
  else if altKmVal mm < 0 ∨ altKmVal mm > 100000 then none
  else some (altKmVal mm)

/-- A parsed catalog row (`CatalogRow` in `backend/catalog.py`).  Float
fields are modelled as rationals (every value the loader can construct is
rational); they are cast to `ℝ` at the orbital-mechanics boundary. -/
structure CatalogRow where
  object_name : String
  mean_motion : ℚ
  eccentricity : ℚ
deriving DecidableEq, Repr

/-- `backend/catalog.py`, `leo_zone_for_altitude`. -/
noncomputable def leo_zone_for_altitude (alt_km : ℝ) : String × String :=
  if 300 ≤ alt_km ∧ alt_km < 500 then ("LEO-1", "300–500 km")
  else if 500 ≤ alt_km ∧ alt_km < 800 then ("LEO-2", "500–800 km")
  else if 800 ≤ alt_km ∧ alt_km < 1200 then ("LEO-3", "800–1200 km")
  else if 1200 ≤ alt_km ∧ alt_km < 2000 then ("LEO-4", "1200–2000 km")
  else ("OTHER", "outside defined LEO zones")

/-- Insertion into the `zones` dict of `count_active_leo_zones`: create the
entry with count 1 on first sight of a label, else bump its count in place. -/
def zonesInsert (zs : List (String × ℕ × String)) (label : String) (rng : String) :
    List (String × ℕ × String) :=
  match zs with
  | [] => [(label, 1, rng)]
  | (l, c, r) :: rest =>
    if l = label then (l, c + 1, r) :: rest else (l, c, r) :: zonesInsert rest label rng

/-- `backend/catalog.py`, `count_active_leo_zones`: per-zone counts of the
objects passing the LEO filter (`mean_motion ≥ 11.25 and ecc < 0.25`),
skipping objects with no derivable altitude and the `OTHER` zone.  The
result models the Python dict as an insertion-ordered association list
`label ↦ (count, range)`. -/
noncomputable def count_active_leo_zones (objects : List CatalogRow) :
    List (String × ℕ × String) :=
  objects.foldl
    (fun zs obj =>
      if ¬((11.25 : ℚ) ≤ obj.mean_motion ∧ obj.eccentricity < (0.25 : ℚ)) then zs
      else
        match mean_motion_to_altitude_km ((obj.mean_motion : ℝ)) with
        | none => zs
        | some alt =>
          let lr := leo_zone_for_altitude alt
          if lr.1 = "OTHER" then zs else zonesInsert zs lr.1 lr.2)
    []

/-- One output row of `compute_leo_zones_from_active_catalog`
(`{"zone_label": …, "count": …, "zpi": …}`). -/
structure ZoneOut where
  zone_label : String
  count : ℕ
  zpi : ℚ
deriving DecidableEq, Repr

/-- The mutable per-zone counters of `compute_leo_zones_from_active_catalog`
(`zones[label]["count"]` for LEO-1 … LEO-4). -/
structure ZoneCounts where
  c1 : ℕ
  c2 : ℕ
  c3 : ℕ
  c4 : ℕ
deriving DecidableEq, Repr

/-- One iteration of the binning loop in
`compute_leo_zones_from_active_catalog`.  When
`mean_motion_to_altitude_km` returns `None`, the Python comparison
`300 <= None` raises an uncaught `TypeError` (the `try` only wraps the
altitude call, which never raises), so the whole computation aborts:
modelled by `none`. -/
noncomputable def zoneBinStep (c : ZoneCounts) (obj : CatalogRow) : Option ZoneCounts :=
  match mean_motion_to_altitude_km ((obj.mean_motion : ℝ)) with
  | none => none
  | some alt =>
    if 300 ≤ alt ∧ alt < 500 then some { c with c1 := c.c1 + 1 }
    else if 500 ≤ alt ∧ alt < 800 then some { c with c2 := c.c2 + 1 }
    else if 800 ≤ alt ∧ alt < 1200 then some { c with c3 := c.c3 + 1 }
    else if 1200 ≤ alt ∧ alt < 2000 then some { c with c4 := c.c4 + 1 }
    else some c

/-- The output-building loop of `compute_leo_zones_from_active_catalog`:
`max_count = max(counts) or 1`, then one row per zone with
`zpi = round(count / max_count * 100.0, 2)`. -/
def zoneRowsFromCounts (c : ZoneCounts) : List ZoneOut :=
  let max_count : ℕ := max (max (max c.c1 c.c2) c.c3) c.c4
  let m : ℕ := if max_count = 0 then 1 else max_count
  [⟨"LEO-1", c.c1, pyRound 2 ((c.c1 : ℚ) / (m : ℚ) * 100)⟩,
   ⟨"LEO-2", c.c2, pyRound 2 ((c.c2 : ℚ) / (m : ℚ) * 100)⟩,
   ⟨"LEO-3", c.c3, pyRound 2 ((c.c3 : ℚ) / (m : ℚ) * 100)⟩,
   ⟨"LEO-4", c.c4, pyRound 2 ((c.c4 : ℚ) / (m : ℚ) * 100)⟩]

/-- `backend/catalog.py`, `compute_leo_zones_from_active_catalog`,
parameterised by the loaded catalog (the source reads it from the
single-slot cache).  `none` models the uncaught `TypeError` described at
`zoneBinStep`. -/
noncomputable def compute_leo_zones_from_active_catalog (objects : List CatalogRow) :
    Option (List ZoneOut) :=
  (objects.foldlM zoneBinStep ⟨0, 0, 0, 0⟩).map zoneRowsFromCounts

/-- Demo rows used by concrete evaluations below. -/
def row155 : CatalogRow := ⟨"A", 15.5, 0⟩

def row15 : CatalogRow := ⟨"B", 15, 0.01⟩

def row15e : CatalogRow := ⟨"E", 15, 0.5⟩

def row14 : CatalogRow := ⟨"C", 14, 0⟩

def row0 : CatalogRow := ⟨"X", 0, 0⟩

/-! ### History store: persisted JSON snapshots (`backend/main.py`,
`backend/tools/make_history_snapshot.py`) -/

/-- A JSON value, for the parts of the code that inspect dynamic JSON.
Python booleans are separate from numbers here, matching the
`isinstance(x, bool)` exclusion in the validator. -/
inductive JVal where
  | null
  | bool (b : Bool)
  | num (q : ℚ)
  | str (s : String)
  | arr (elems : List JVal)
  | obj (fields : List (String × JVal))

/-- Python truthiness of a JSON value. -/
def jFalsy (v : JVal) : Bool :=
  match v with
  | .null => true
  | .bool b => !b
  | .num q => q == 0
  | .str s => s == ""
  | .arr l => l.isEmpty
  | .obj l => l.isEmpty

/-- A history file on disk: filename and parsed content, `none` when
`json.loads` would fail.  Top-level payloads are modelled as JSON objects
(association lists of fields). -/
abbrev HFile := String × Option (List (String × JVal))

/-- Codepoint-lexicographic comparison of character lists. -/
def strLtB : List Char → List Char → Bool
  | [], [] => false
  | [], _ :: _ => true
  | _ :: _, [] => false
  | a :: as, b :: bs =>
    if a.val < b.val then true else if b.val < a.val then false else strLtB as bs

/-- Python string comparison (`<` on `str`): lexicographic by codepoint.
This is the order both of `sorted(...)` on filenames and of
`datetime.fromisoformat` values of equal-width ISO-8601-Z strings. -/
def pyStrLt (a b : String) : Bool := strLtB a.toList b.toList

/-- Stable insertion into a list sorted ascending by a `String` key
(skips while the existing key is smaller, so equal keys keep their
original relative order). -/
def insertSortedByKey {α : Type} (key : α → String) (x : α) : List α → List α
  | [] => [x]
  | y :: ys => if pyStrLt (key y) (key x) then y :: insertSortedByKey key x ys else x :: y :: ys

/-- Stable sort by a `String` key, modelling both `sorted(...)` on
filenames and `list.sort(key=...)` on parsed timestamps. -/
def sortByKey {α : Type} (key : α → String) : List α → List α
  | [] => []
  | x :: xs => insertSortedByKey key x (sortByKey key xs)

/-- `backend/main.py`, `_load_history_files`: read every parseable history
file in FILENAME order, keeping payloads that have both a
`snapshot_time_utc` and an `active_regimes` key; parse failures are
skipped.  No sorting by content timestamp happens here. -/
def load_history_files (dirExists : Bool) (files : List HFile) :
    List (List (String × JVal)) :=
  if ¬dirExists then []
  else
    (sortByKey Prod.fst files).filterMap fun f =>
      match f.2 with
      | none => none
      | some payload =>
        if (payload.any fun p => p.1 = "snapshot_time_utc")
            ∧ (payload.any fun p => p.1 = "active_regimes") then some payload
        else none

/-- `backend/main.py`, `load_history_points`: read every history file
(no exception handling: an unparseable file, or a non-string
`snapshot_time_utc` on a kept point, aborts the call — modelled by
`none`), skip payloads whose `snapshot_time_utc` is missing or falsy,
then sort the points ascending by the timestamp parsed from the content.
`datetime.fromisoformat` on the fixed-width ISO-8601-Z strings this store
uses orders exactly like the strings themselves, so the sort key is
modelled as the raw string. -/
def load_history_points (files : List HFile) :
    Option (List (List (String × JVal))) := do
  let contents ← (sortByKey Prod.fst files).mapM Prod.snd
  let pts := contents.filterMap fun (d : List (String × JVal)) =>
    match List.lookup "snapshot_time_utc" d with
    | none => none
    | some v => if jFalsy v then none else some d
  let keyed ← pts.mapM fun (d : List (String × JVal)) =>
    match List.lookup "snapshot_time_utc" d with
    | some (JVal.str s) => some (s, d)
    | _ => (none : Option (String × List (String × JVal)))
  pure ((sortByKey Prod.fst keyed).map Prod.snd)

/-- The snapshot record assembled by
`backend/tools/make_history_snapshot.py` (`main`): the five keys written
to each history file, with the unused notes of `tracked_objects`
modelled as four integers. -/
structure SnapshotFile where
  snapshot_time_utc : String
  data_snapshot_time_utc : Option String
  active_regimes : ℤ × ℤ × ℤ
  leo_zones : List ZoneOut
  tracked_objects : ℤ × ℤ × ℤ × ℤ
deriving DecidableEq, Repr

/-- The history directory as seen by the generation tool: filename and
parsed content (`none` when `json.loads` would fail). -/
abbrev HistStore := List (String × Option SnapshotFile)

/-- `_list_history_files`: files sorted by name. -/
def list_history_files (store : HistStore) : HistStore :=
  sortByKey Prod.fst store

/-- `read_latest_history_snapshot`: content of the last file in name
order; a parse failure is swallowed into `None`. -/
def read_latest_history_snapshot (store : HistStore) : Option SnapshotFile :=
  match (list_history_files store).getLast? with
  | none => none
  | some f => f.2

/-- Writing a file: replace the content at `name` or create the entry. -/
def storeWrite (store : HistStore) (name : String) (snap : SnapshotFile) : HistStore :=
  if store.any fun f => f.1 = name then
    store.map fun f => if f.1 = name then (name, some snap) else f
  else store ++ [(name, some snap)]

/-- The output location chosen by `write_snapshot_file`: `--out` wins,
else `<date>.json` from `--date` or the current UTC date.  Filesystem
path resolution is abstracted to the name itself. -/
def snapshotOutPath (date out : Option String) (today : String) : String :=
  match out with
  | some o => o
  | none => (date.getD today) ++ ".json"

/-- `backend/tools/make_history_snapshot.py`, `main` composed with
`write_snapshot_file`, as a function of the environment: the parsed
arguments, the underlying data timestamp (`catalog.get_snapshot_timestamp_iso`),
the wall-clock timestamp and date, the computed snapshot content, and the
history directory.  Returns the process exit status and the directory
after the call: `2` is the unchanged-source refusal, `1` the
`SystemExit` raised by `write_snapshot_file` for an existing target
without `--force`, `0` success. -/
def make_history_snapshot_main (date out : Option String) (force : Bool)
    (data_snapshot_time_utc now_iso today : String)
    (active_regimes : ℤ × ℤ × ℤ) (leo_zones : List ZoneOut)
    (tracked : ℤ × ℤ × ℤ × ℤ) (store : HistStore) : ℤ × HistStore :=
  let latest := read_latest_history_snapshot store
  if (latest.elim false fun l => l.data_snapshot_time_utc == some data_snapshot_time_utc)
      && !force then
    (2, store)
  else
    let snap : SnapshotFile :=
      ⟨now_iso, some data_snapshot_time_utc, active_regimes, leo_zones, tracked⟩
    let out_path := snapshotOutPath date out today
    if (store.any fun f => f.1 = out_path) && !force then (1, store)
    else (0, storeWrite store out_path snap)

/-- Concrete history payloads whose filename order and content-timestamp
order disagree: `a.json` holds the LATER timestamp. -/
def payloadA : List (String × JVal) :=
  [("snapshot_time_utc", JVal.str "2026-01-02T00:00:00Z"),
   ("active_regimes", JVal.obj [("LEO", JVal.num 10), ("MEO", JVal.num 2), ("GEO", JVal.num 3)])]

def payloadB : List (String × JVal) :=
  [("snapshot_time_utc", JVal.str "2026-01-01T00:00:00Z"),
   ("active_regimes", JVal.obj [("LEO", JVal.num 8), ("MEO", JVal.num 2), ("GEO", JVal.num 3)])]

def fileA : HFile := ("a.json", some payloadA)

def fileB : HFile := ("b.json", some payloadB)

/-- Concrete stores for the generation-tool theorems. -/
def demoSnap1 : SnapshotFile :=
  ⟨"2026-01-07T06:54:22Z", some "2026-01-07T06:00:00Z", (1, 2, 3), [], (0, 0, 0, 0)⟩

def demoSnap2 : SnapshotFile :=
  ⟨"2026-01-06T06:54:22Z", some "2026-01-06T06:00:00Z", (1, 2, 3), [], (0, 0, 0, 0)⟩

def demoStore1 : HistStore := [("2026-01-07.json", some demoSnap1)]

def demoStore2 : HistStore := [("2026-01-06.json", some demoSnap2)]

/-! ### Delta engine (`backend/main.py`) -/

/-- A history snapshot as read by `ori_history_active_regimes`: the
`snapshot_time_utc` field and the `active_regimes` block (`none` for a
missing or falsy block; each regime key individually optional, defaulting
to 0; the stored counts are JSON integers). -/
structure SnapAR where
  snapshot_time_utc : Option String
  active_regimes : Option (Option ℤ × Option ℤ × Option ℤ)
deriving DecidableEq, Repr

/-- `int(ar.get("LEO", 0))` with `ar = s.get("active_regimes", {}) or {}`. -/
def arLeo (s : SnapAR) : ℤ := ((s.active_regimes.getD (none, none, none)).1).getD 0

def arMeo (s : SnapAR) : ℤ := ((s.active_regimes.getD (none, none, none)).2.1).getD 0

def arGeo (s : SnapAR) : ℤ := ((s.active_regimes.getD (none, none, none)).2.2).getD 0

/-- One `ActiveRegimesHistoryPoint` produced by the loop body of
`ori_history_active_regimes`. -/
structure RegimePoint where
  snapshot_time_utc : String
  leo_active : ℤ
  meo_active : ℤ
  geo_active : ℤ
  delta_leo : ℤ
  delta_meo : ℤ
  delta_geo : ℤ
deriving DecidableEq, Repr

/-- The loop body of `ori_history_active_regimes` for one snapshot, given
the `prev` accumulator. -/
def regimePointOf (prev : Option (ℤ × ℤ × ℤ)) (s : SnapAR) : RegimePoint :=
  let t := s.snapshot_time_utc.getD "unknown"
  match prev with
  | none => ⟨t, arLeo s, arMeo s, arGeo s, 0, 0, 0⟩
  | some (pl, pm, pg) =>
    ⟨t, arLeo s, arMeo s, arGeo s, arLeo s - pl, arMeo s - pm, arGeo s - pg⟩

/-- The whole loop of `ori_history_active_regimes` over the selected
window (`prev` starts at `None`). -/
def ori_history_active_regimes_points :
    Option (ℤ × ℤ × ℤ) → List SnapAR → List RegimePoint
  | _, [] => []
  | prev, s :: rest =>
    regimePointOf prev s ::
      ori_history_active_regimes_points (some (arLeo s, arMeo s, arGeo s)) rest

/-- A zone entry of a stored snapshot as the delta code reads it: each
field either absent or a JSON number / string (JSON nulls in these fields
are not modelled; the store writer never produces them). -/
structure ZDict where
  zone_label : Option String
  count : Option ℚ
  estimated_object_count : Option ℚ
  zpi : Option ℚ
  zone_pressure_index : Option ℚ
deriving DecidableEq, Repr

/-- A snapshot as read by `ori_history_leo_zones`. -/
structure SnapZ where
  snapshot_time_utc : Option String
  leo_zones : Option (List ZDict)
  zones : Option (List ZDict)
deriving DecidableEq, Repr

/-- Python `x or next` for an optional list field (falsy = missing or
empty). -/
def orElseList (x : Option (List ZDict)) (next : List ZDict) : List ZDict :=
  match x with
  | some l => if l.isEmpty then next else l
  | none => next

/-- `(s.get("leo_zones") or s.get("zones") or [])`. -/
def snapZonesRaw (s : SnapZ) : List ZDict :=
  orElseList s.leo_zones (orElseList s.zones [])

/-- Python whitespace classification for `str.strip` (ASCII range). -/
def isPyWhitespace (c : Char) : Bool :=
  c == ' ' || c == '\t' || c == '\n' || c == '\r' || c == '\x0b' || c == '\x0c'

/-- Python `str.strip()`: drop leading and trailing whitespace.
(`String.trim` matches this on ASCII input but does not reduce in the
kernel, so the list-level implementation is used.) -/
def pyStrip (s : String) : String :=
  String.mk (((s.toList.dropWhile isPyWhitespace).reverse.dropWhile isPyWhitespace).reverse)

/-- Python dict assignment `m[k] = v`: overwrite in place or append. -/
def mapSet (m : List (String × ℚ × ℚ)) (k : String) (v : ℚ × ℚ) :
    List (String × ℚ × ℚ) :=
  if m.any fun p => p.1 = k then m.map fun p => if p.1 = k then (k, v) else p
  else m ++ [(k, v)]

/-- Dict lookup over the built zone map. -/
def lookupMap (m : List (String × ℚ × ℚ)) (k : String) : Option (ℚ × ℚ) :=
  (m.find? fun p => p.1 == k).map Prod.snd

/-- The `curr_map` construction of `ori_history_leo_zones`: for each zone
dict with a non-empty stripped label, store
`(count or estimated_object_count or 0, zpi or zone_pressure_index or 0)`,
later entries for the same label overwriting earlier ones. -/
def buildCurrMap (zs : List ZDict) : List (String × ℚ × ℚ) :=
  zs.foldl
    (fun m z =>
      let label := pyStrip (z.zone_label.getD "")
      if label = "" then m
      else
        mapSet m label
          (z.count.getD (z.estimated_object_count.getD 0),
           z.zpi.getD (z.zone_pressure_index.getD 0)))
    []

/-- One `LEOZoneHistoryRow` of `ori_history_leo_zones`. -/
structure LEOZoneHistoryRow where
  zone_label : String
  count : ℤ
  zpi : ℚ
  delta_count : ℤ
  delta_zpi : ℚ
deriving DecidableEq, Repr

/-- The per-label row construction of `ori_history_leo_zones`: deltas are
taken against `prev_map` only when deltas are requested, the previous map
is truthy (non-empty), and the label occurs there; otherwise both deltas
are 0.  `delta_zpi` goes through `round(…, 3)`. -/
def zoneRowOf (includeDeltas : Bool) (prevMap : Option (List (String × ℚ × ℚ)))
    (currMap : List (String × ℚ × ℚ)) (label : String) : LEOZoneHistoryRow :=
  let cv := (lookupMap currMap label).getD (0, 0)
  let prevTruthy := match prevMap with
    | some m => !m.isEmpty
    | none => false
  let d : ℤ × ℚ :=
    match (if includeDeltas && prevTruthy then lookupMap (prevMap.getD []) label else none) with
    | some pv => (pyInt cv.1 - pyInt pv.1, cv.2 - pv.2)
    | none => (0, 0)
  ⟨label, pyInt cv.1, cv.2, d.1, pyRound 3 d.2⟩

/-- The whole loop of `ori_history_leo_zones` over the selected window:
one `(snapshot_time_utc, rows)` point per snapshot, labels sorted,
`prev_map` carried across iterations. -/
def ori_history_leo_zones_points (includeDeltas : Bool) :
    Option (List (String × ℚ × ℚ)) → List SnapZ → List (String × List LEOZoneHistoryRow)
  | _, [] => []
  | prevMap, s :: rest =>
    let t := s.snapshot_time_utc.getD "unknown"
    let currMap := buildCurrMap (snapZonesRaw s)
    let labels := sortByKey id (currMap.map Prod.fst)
    let rows := labels.map (zoneRowOf includeDeltas prevMap currMap)
    (t, rows) :: ori_history_leo_zones_points includeDeltas (some currMap) rest

/-- A point as consumed by `_compute_zone_deltas` (a dict with
`snapshot_time_utc` and `zones`). -/
structure ZPoint where
  snapshot_time_utc : Option String
  zones : Option (List ZDict)
deriving DecidableEq, Repr

/-- The all-fields-absent dict used as default by
`prev_map.get(label, {})`. -/
def emptyZDict : ZDict := ⟨none, none, none, none, none⟩

/-- `{z.get("zone_label"): z for z in prev_zones}` followed by `.get`:
with duplicate labels the LAST dict wins. -/
def prevMapLookup (zs : List ZDict) (label : Option String) : Option ZDict :=
  zs.reverse.find? fun w => w.zone_label == label

/-- One output zone of `_compute_zone_deltas`: the original dict plus the
two delta fields added to it. -/
structure ZDeltaOut where
  orig : ZDict
  delta_count : ℤ
  delta_zpi : ℚ
deriving DecidableEq, Repr

/-- `backend/main.py`, `_compute_zone_deltas`: per-label deltas of the
current point against the previous point, a label absent from the
previous point falling back to the all-absent dict (hence baseline 0). -/
def compute_zone_deltas (prev_point cur_point : ZPoint) :
    Option String × List ZDeltaOut :=
  let prev_zones := prev_point.zones.getD []
  let cur_zones := cur_point.zones.getD []
  let out := cur_zones.map fun z =>
    let prev := (prevMapLookup prev_zones z.zone_label).getD emptyZDict
    let cur_count := z.count.getD (z.estimated_object_count.getD 0)
    let prev_count := prev.count.getD (prev.estimated_object_count.getD 0)
    let cur_zpi := z.zpi.getD (z.zone_pressure_index.getD 0)
    let prev_zpi := prev.zpi.getD (prev.zone_pressure_index.getD 0)
    ⟨z, pyInt cur_count - pyInt prev_count, cur_zpi - prev_zpi⟩
  (cur_point.snapshot_time_utc, out)

/-- Concrete two-snapshot zone window: `LEO-9` appears only in the second
snapshot, with count 7 and zpi 30. -/
def zdS1 : ZDict := ⟨some "LEO-1", some 5, none, some 10, none⟩

def zdS2a : ZDict := ⟨some "LEO-1", some 6, none, some 12, none⟩

def zdS2b : ZDict := ⟨some "LEO-9", some 7, none, some 30, none⟩

def snapZ1 : SnapZ := ⟨some "2026-01-01T00:00:00Z", some [zdS1], none⟩

def snapZ2 : SnapZ := ⟨some "2026-01-02T00:00:00Z", some [zdS2a, zdS2b], none⟩

/-- Concrete two-snapshot regime window. -/
def arS1 : SnapAR := ⟨some "2026-01-01T00:00:00Z", some (some 100, some 20, some 30)⟩

def arS2 : SnapAR := ⟨some "2026-01-02T00:00:00Z", some (some 110, some 19, some 30)⟩

/-! ### Validator (`backend/tools/validate_history.py`) -/

/-- The finding kinds of the validator.  The Python tool renders each as a
formatted message string; the message text is presentational and is
abstracted to the kind plus its data. -/
inductive ProblemKind where
  | historyDirMissing
  | noSnapshots
  | invalidJson
  | missingSnapshotTime
  | badTimestampFormat (st : String)
  | missingActiveRegimes
  | missingRegimeKey (k : String)
  | badRegimeValue (k : String)
  | duplicateSnapshotTime (st : String) (firstFile : String)
  | missingZones
  | badZonesShape
  | zoneNotDict (i : ℕ)
  | zoneMissingKeys (i : ℕ)
  | badZoneLabel (i : ℕ)
  | duplicateZoneLabel (i : ℕ) (label : String)
  | badZoneCount (i : ℕ)
  | badZoneZpi (i : ℕ)
  | zpiOutOfRange (i : ℕ) (zpi : ℚ)
deriving DecidableEq, Repr

/-- A `Problem(file, message)` of the validator. -/
abbrev Problem := String × ProblemKind

/-- `is_number`: a JSON number, with booleans excluded
(`isinstance(x, bool)` guard). -/
def is_number (v : JVal) : Bool :=
  match v with
  | .num _ => true
  | _ => false

/-- `data.get(k)` on a parsed top-level object. -/
def dGet (data : List (String × JVal)) (k : String) : Option JVal :=
  List.lookup k data

/-- The `zones = data.get("leo_zones", None) … data.get("zones", None)`
selection: a JSON-null value behaves like a missing key here. -/
def zonesField (data : List (String × JVal)) : Option JVal :=
  match dGet data "leo_zones" with
  | some JVal.null | none =>
    (match dGet data "zones" with
     | some JVal.null | none => none
     | some v => some v)
  | some v => some v

/-- The `active_regimes` validation block (lines 66–76 of the tool). -/
def checkRegimes (fname : String) (data : List (String × JVal)) : List Problem :=
  match dGet data "active_regimes" with
  | some (JVal.obj ar) =>
    (["LEO", "MEO", "GEO"]).foldl
      (fun acc k =>
        acc ++
          match List.lookup k ar with
          | none => [(fname, .missingRegimeKey k)]
          | some v =>
            match v with
            | .num q => if pyInt q < 0 then [(fname, .badRegimeValue k)] else []
            | _ => [(fname, .badRegimeValue k)])
      []
  | _ => [(fname, .missingActiveRegimes)]

/-- The per-zone validation body (lines 105–135), returning the problems
and the updated `labels_seen`. -/
def checkZone (fname : String) (i : ℕ) (z : JVal) (labels_seen : List String) :
    List Problem × List String :=
  match z with
  | JVal.obj fields =>
    if ¬((fields.any fun p => p.1 = "zone_label")
        ∧ (fields.any fun p => p.1 = "count")
        ∧ (fields.any fun p => p.1 = "zpi")) then
      ([(fname, .zoneMissingKeys i)], labels_seen)
    else
      let labelPart : List Problem × List String :=
        match List.lookup "zone_label" fields with
        | some (JVal.str s) =>
          if pyStrip s = "" then ([(fname, .badZoneLabel i)], labels_seen)
          else if s ∈ labels_seen then
            ([(fname, .duplicateZoneLabel i s)], s :: labels_seen)
          else ([], s :: labels_seen)
        | _ => ([(fname, .badZoneLabel i)], labels_seen)
      let countPart : List Problem :=
        match List.lookup "count" fields with
        | some v => if is_number v then [] else [(fname, .badZoneCount i)]
        | none => [(fname, .badZoneCount i)]
      let zpiPart : List Problem :=
        match List.lookup "zpi" fields with
        | some (JVal.num q) =>
          if q < 0 ∨ 100 < q then [(fname, .zpiOutOfRange i q)] else []
        | _ => [(fname, .badZoneZpi i)]
      (labelPart.1 ++ countPart ++ zpiPart, labelPart.2)
  | _ => ([(fname, .zoneNotDict i)], labels_seen)

/-- The loop over the zones array. -/
def checkZonesList (fname : String) : ℕ → List String → List JVal → List Problem
  | _, _, [] => []
  | i, seen, z :: rest =>
    let r := checkZone fname i z seen
    r.1 ++ checkZonesList fname (i + 1) r.2 rest

/-- The `snapshot_time_utc`-presence view a file registers under for the
duplicate check: the raw string when the file parses and the field is a
string with non-empty strip, otherwise nothing. -/
def stOf (f : HFile) : Option String :=
  match f.2 with
  | none => none
  | some data =>
    match dGet data "snapshot_time_utc" with
    | some (JVal.str s) => if pyStrip s = "" then none else some s
    | _ => none

/-- The `snapshot_time_utc` validation and duplicate registration of the
per-file loop (lines 55–87), parameterised by `parseOk`, which models
whether `datetime.fromisoformat` accepts a timestamp string. -/
def stCheck (parseOk : String → Bool) (fname : String) (data : List (String × JVal))
    (seen_times : List (String × String)) :
    List Problem × List (String × String) :=
  match dGet data "snapshot_time_utc" with
  | some (JVal.str s) =>
    if pyStrip s = "" then ([(fname, .missingSnapshotTime)], seen_times)
    else
      let p1 : List Problem := if parseOk s then [] else [(fname, .badTimestampFormat s)]
      let p2 := checkRegimes fname data
      let p3 : List Problem × List (String × String) :=
        match List.lookup s seen_times with
        | some firstF => ([(fname, .duplicateSnapshotTime s firstF)], seen_times)
        | none => ([], seen_times ++ [(s, fname)])
      (p1 ++ p2 ++ p3.1, p3.2)
  | _ => ([(fname, .missingSnapshotTime)], seen_times)

/-- The zones validation of the per-file loop (lines 89–135). -/
def zonesCheck (fname : String) (data : List (String × JVal)) : List Problem :=
  match zonesField data with
  | none => [(fname, .missingZones)]
  | some (JVal.arr zs) =>
    if zs.isEmpty then [(fname, .badZonesShape)] else checkZonesList fname 0 [] zs
  | some _ => [(fname, .badZonesShape)]

/-- The whole per-file loop body of the validator `main` (lines 48–135):
problems of this file and the updated `seen_times` map. -/
def checkFile (parseOk : String → Bool) (f : HFile)
    (seen_times : List (String × String)) :
    List Problem × List (String × String) :=
  match f.2 with
  | none => ([(f.1, .invalidJson)], seen_times)
  | some data =>
    ((stCheck parseOk f.1 data seen_times).1 ++ zonesCheck f.1 data,
     (stCheck parseOk f.1 data seen_times).2)

/-- The fold of the per-file loop over all files, threading `seen_times`. -/
def validateFold (parseOk : String → Bool) :
    List HFile → List (String × String) → List Problem × List (String × String)
  | [], seen => ([], seen)
  | f :: rest, seen =>
    let r1 := checkFile parseOk f seen
    let r2 := validateFold parseOk rest r1.2
    (r1.1 ++ r2.1, r2.2)

/-- `backend/tools/validate_history.py`, `main` up to `report`: all
problems found over the store (files processed in sorted name order). -/
def validate_history (parseOk : String → Bool) (dirExists : Bool)
    (files : List HFile) : List Problem :=
  if ¬dirExists then [("<history-dir>", .historyDirMissing)]
  else if files.isEmpty then [("<history-dir>", .noSnapshots)]
  else (validateFold parseOk (sortByKey Prod.fst files) []).1

/-- `report`: exit status 0 exactly when no problems were found. -/
def report_exit (problems : List Problem) : ℤ :=
  if problems.isEmpty then 0 else 1

/-- The full tool: `main` composed with `report`. -/
def validate_history_exit (parseOk : String → Bool) (dirExists : Bool)
    (files : List HFile) : ℤ :=
  report_exit (validate_history parseOk dirExists files)

/-- Two fully valid stored records that share `data_snapshot_time_utc`
(the source timestamp) while having distinct `snapshot_time_utc`. -/
def vpayload1 : List (String × JVal) :=
  [("snapshot_time_utc", JVal.str "2026-01-01T00:00:00Z"),
   ("data_snapshot_time_utc", JVal.str "2026-01-01T00:00:00Z"),
   ("active_regimes", JVal.obj [("LEO", JVal.num 10), ("MEO", JVal.num 5), ("GEO", JVal.num 3)]),
   ("leo_zones", JVal.arr
     [JVal.obj [("zone_label", JVal.str "LEO-1"), ("count", JVal.num 10), ("zpi", JVal.num 100)]])]

def vpayload2 : List (String × JVal) :=
  [("snapshot_time_utc", JVal.str "2026-01-02T00:00:00Z"),
   ("data_snapshot_time_utc", JVal.str "2026-01-01T00:00:00Z"),
   ("active_regimes", JVal.obj [("LEO", JVal.num 11), ("MEO", JVal.num 5), ("GEO", JVal.num 3)]),
   ("leo_zones", JVal.arr
     [JVal.obj [("zone_label", JVal.str "LEO-1"), ("count", JVal.num 11), ("zpi", JVal.num 100)]])]

def vfile1 : HFile := ("2026-01-01.json", some vpayload1)

def vfile2 : HFile := ("2026-01-02.json", some vpayload2)

/-- A store with two problems at once: a duplicated `snapshot_time_utc`
and a zpi of 137. -/
def vpayload3 : List (String × JVal) :=
  [("snapshot_time_utc", JVal.str "2026-01-01T00:00:00Z"),
   ("active_regimes", JVal.obj [("LEO", JVal.num 12), ("MEO", JVal.num 5), ("GEO", JVal.num 3)]),
   ("leo_zones", JVal.arr
     [JVal.obj [("zone_label", JVal.str "LEO-1"), ("count", JVal.num 12), ("zpi", JVal.num 137)]])]

def vfile3 : HFile := ("2026-01-03.json", some vpayload3)

/-! ### The catalog loader (`backend/catalog.py`, `load_active_catalog`) -/

/-- A CSV cell as `csv.DictReader` delivers it to the row dict: the
column can be absent from the header, present with a string value, or
present with value `None` (a data row shorter than the header is padded
with `restval=None`). -/
inductive Cell where
  | absent
  | pynull
  | pystr (s : String)
deriving DecidableEq, Repr

/-- One raw CSV row, restricted to the three columns the loader reads. -/
structure RawRow where
  object_name : Cell
  mean_motion : Cell
  eccentricity : Cell
deriving DecidableEq, Repr

/-- `raw.get(key, default)`: the default only applies when the key is
absent; a stored `None` is returned as-is (`none` models Python `None`). -/
def rawGet (c : Cell) (default : String) : Option String :=
  match c with
  | .absent => some default
  | .pynull => none
  | .pystr s => some s

/-- `float(v or 0.0)` for `v = raw.get(col, "0")`: `None` and the empty
string are falsy, giving `float(0.0)`; any other string goes through the
`float()` literal parser, modelled by the parameter `pyFloat`
(`none` = `ValueError`). -/
def pyFloatOr (pyFloat : String → Option ℚ) (v : Option String) : Option ℚ :=
  match v with
  | none => some 0
  | some s => if s = "" then some 0 else pyFloat s

/-- The errors `load_active_catalog` can surface: `fileNotFound` is the
`FileNotFoundError` raised when the backing CSV is missing (the spec's
`SourceUnavailable`), and `attributeError` is the `AttributeError` from
`None.strip()`, which the row-level `except (ValueError, TypeError)`
does NOT catch. -/
inductive LoadErr where
  | fileNotFound
  | attributeError
deriving DecidableEq, Repr

/-- One iteration of the row loop of `load_active_catalog` (lines
78–95): `some (some rec)` appends a record, `some none` drops the row
(`continue`), and `none` models the uncaught `AttributeError` from
`raw.get("OBJECT_NAME", "").strip()` when the stored value is `None`.
The three field reads happen in source order inside the `try`; a
`ValueError` from either `float()` call is caught and drops the row,
and the `if not name: continue` empty-name check runs after the `try`. -/
def loadRowStep (pyFloat : String → Option ℚ) (raw : RawRow) :
    Option (Option CatalogRow) :=
  match rawGet raw.object_name "" with
  | none => none
  | some nameRaw =>
    match pyFloatOr pyFloat (rawGet raw.mean_motion "0") with
    | none => some none
    | some mm =>
      match pyFloatOr pyFloat (rawGet raw.eccentricity "0") with
      | none => some none
      | some ecc =>
        if pyStrip nameRaw = "" then some none
        else some (some ⟨pyStrip nameRaw, mm, ecc⟩)

/-- The row loop of `load_active_catalog`: rows accumulate in order; an
uncaught exception aborts the whole call. -/
def loadRows (pyFloat : String → Option ℚ) :
    List RawRow → Except LoadErr (List CatalogRow)
  | [] => .ok []
  | r :: rest =>
    match loadRowStep pyFloat r with
    | none => .error .attributeError
    | some none => loadRows pyFloat rest
    | some (some rec) => (loadRows pyFloat rest).map (rec :: ·)

/-- `backend/catalog.py`, `load_active_catalog` (lines 64–96):
`FileNotFoundError` when the backing CSV does not exist, otherwise the
row loop over the parsed rows. -/
def load_active_catalog (fileExists : Bool) (pyFloat : String → Option ℚ)
    (rawRows : List RawRow) : Except LoadErr (List CatalogRow) :=
  if ¬fileExists then .error .fileNotFound
  else loadRows pyFloat rawRows

/-- A concrete `float()` parser fragment for the demo rows below. -/
def demoPyFloat (s : String) : Option ℚ :=
  if s = "0" then some 0
  else if s = "15.0" then some 15
  else none

/-- Demo rows: a good row, a blank-name row (dropped), and a row whose
mean motion does not parse (dropped). -/
def demoRawRows : List RawRow :=
  [⟨Cell.pystr "SAT A", Cell.pystr "15.0", Cell.pystr "0"⟩,
   ⟨Cell.pystr "  ", Cell.pystr "15.0", Cell.pystr "0"⟩,
   ⟨Cell.pystr "SAT B", Cell.pystr "not-a-number", Cell.pystr "0"⟩]

/-- A row whose `OBJECT_NAME` value is `None` (short CSV data row). -/
def nullNameRow : RawRow := ⟨Cell.pynull, Cell.pystr "15.0", Cell.pystr "0"⟩

/-! ### Helper lemmas about the Python rounding model -/

theorem roundHalfEven_floor_le (q : ℚ) : ⌊q⌋ ≤ roundHalfEven q := by
  unfold roundHalfEven
  split_ifs <;> omega

theorem roundHalfEven_le_floor_add_one (q : ℚ) : roundHalfEven q ≤ ⌊q⌋ + 1 := by
  unfold roundHalfEven
  split_ifs <;> omega

theorem roundHalfEven_mono : Monotone roundHalfEven := by
  intro x y hxy
  rcases lt_or_eq_of_le (Int.floor_le_floor hxy) with hf | hf
  · calc roundHalfEven x ≤ ⌊x⌋ + 1 := roundHalfEven_le_floor_add_one x
      _ ≤ ⌊y⌋ := by omega
      _ ≤ roundHalfEven y := roundHalfEven_floor_le y
  · by_cases h1 : x - (⌊x⌋ : ℚ) < 1/2
    · have hx : roundHalfEven x = ⌊x⌋ := by unfold roundHalfEven; rw [if_pos h1]
      rw [hx, hf]
      exact roundHalfEven_floor_le y
    · by_cases h2 : 1/2 < x - (⌊x⌋ : ℚ)
      · have hy2 : 1/2 < y - (⌊y⌋ : ℚ) := by
          rw [← hf]
          have : x - (⌊x⌋ : ℚ) ≤ y - (⌊x⌋ : ℚ) := by linarith
          linarith
        have hy1 : ¬ (y - (⌊y⌋ : ℚ) < 1/2) := by linarith
        have hx : roundHalfEven x = ⌊x⌋ + 1 := by
          unfold roundHalfEven; rw [if_neg h1, if_pos h2]
        have hy : roundHalfEven y = ⌊y⌋ + 1 := by
          unfold roundHalfEven; rw [if_neg hy1, if_pos hy2]
        omega
      · by_cases h3 : 1/2 < y - (⌊y⌋ : ℚ)
        · have hy1 : ¬ (y - (⌊y⌋ : ℚ) < 1/2) := by linarith
          have hy : roundHalfEven y = ⌊y⌋ + 1 := by
            unfold roundHalfEven; rw [if_neg hy1, if_pos h3]
          have hxb := roundHalfEven_le_floor_add_one x
          omega
        · have hxeq : x = y := by
            have hx2 : x - (⌊x⌋ : ℚ) = 1/2 := le_antisymm (not_lt.mp h2) (not_lt.mp h1)
            have hy2 : y - (⌊y⌋ : ℚ) ≤ 1/2 := not_lt.mp h3
            rw [← hf] at hy2
            have : y - (⌊x⌋ : ℚ) ≥ 1/2 := by linarith
            have : y - (⌊x⌋ : ℚ) = 1/2 := le_antisymm hy2 this
            linarith
          rw [hxeq]

theorem pyRound_mono (n : ℕ) : Monotone (pyRound n) := by
  intro x y hxy
  unfold pyRound
  have h10 : (0 : ℚ) < (10 : ℚ) ^ n := by positivity
  have hr : roundHalfEven (x * (10 ^ n : ℚ)) ≤ roundHalfEven (y * (10 ^ n : ℚ)) :=
    roundHalfEven_mono (mul_le_mul_of_nonneg_right hxy h10.le)
  exact (div_le_div_iff_of_pos_right h10).mpr (by exact_mod_cast hr)

theorem pyRound_intCast (n : ℕ) (z : ℤ) : pyRound n ((z : ℚ)) = z := by
  unfold pyRound roundHalfEven
  have hz : ((z : ℚ)) * (10 ^ n : ℚ) = ((z * 10 ^ n : ℤ) : ℚ) := by push_cast; ring
  rw [hz, Int.floor_intCast]
  have h0 : ((z * 10 ^ n : ℤ) : ℚ) - ((z * 10 ^ n : ℤ) : ℚ) = 0 := by ring
  rw [h0]
  norm_num

/-! ### Helper lemmas about the altitude derivation -/

theorem nRadS_pos {mm : ℝ} (h : 0 < mm) : 0 < nRadS mm := by
  unfold nRadS
  have hπ := Real.pi_pos
  positivity

theorem basePos {mm : ℝ} (h : 0 < mm) : 0 < MU_EARTH_KM3_S2 / (nRadS mm) ^ 2 := by
  have hn := nRadS_pos h
  unfold MU_EARTH_KM3_S2
  positivity

theorem aKm_pos {mm : ℝ} (h : 0 < mm) : 0 < aKm mm :=
  Real.rpow_pos_of_pos (basePos h) _

theorem aKm_cube {mm : ℝ} (h : 0 < mm) :
    (aKm mm) ^ (3 : ℕ) = MU_EARTH_KM3_S2 / (nRadS mm) ^ 2 := by
  have hb := (basePos h).le
  unfold aKm
  rw [← Real.rpow_natCast ((MU_EARTH_KM3_S2 / (nRadS mm) ^ 2) ^ ((1 : ℝ) / 3)) 3,
    ← Real.rpow_mul hb]
  norm_num

theorem base_as_rational (mm : ℝ) (_h : mm ≠ 0) :
    MU_EARTH_KM3_S2 / (nRadS mm) ^ 2
      = MU_EARTH_KM3_S2 * 86400 ^ 2 / (mm ^ 2 * (2 * Real.pi) ^ 2) := by
  unfold nRadS
  have hsq : (mm * 2 * Real.pi / 86400) ^ 2 = mm ^ 2 * (2 * Real.pi) ^ 2 / 86400 ^ 2 := by
    ring
  rw [hsq, div_div_eq_mul_div]

/-- Rational window for the closed-form altitude: outer rational bounds on
`π` turn altitude-band membership into a pure rational inequality. -/
theorem altKmVal_window {mm aLo aHi : ℝ} (hmm : 0 < mm) (hLo : 0 ≤ aLo) (hHi : 0 ≤ aHi)
    (h1 : aLo ^ 3 * (mm ^ 2 * (2 * 3.141593) ^ 2) ≤ MU_EARTH_KM3_S2 * 86400 ^ 2)
    (h2 : MU_EARTH_KM3_S2 * 86400 ^ 2 < aHi ^ 3 * (mm ^ 2 * (2 * 3.141592) ^ 2)) :
    aLo - EARTH_RADIUS_KM ≤ altKmVal mm ∧ altKmVal mm < aHi - EARTH_RADIUS_KM := by
  have hπl := Real.pi_gt_d6
  have hπu := Real.pi_lt_d6
  have hπ0 := Real.pi_pos
  have hd1 : 0 < mm ^ 2 * (2 * Real.pi) ^ 2 := by positivity
  have hbase := base_as_rational mm hmm.ne'
  have haLo3 : 0 ≤ aLo ^ 3 := by positivity
  have haHi3 : 0 ≤ aHi ^ 3 := by positivity
  have hmm2 : 0 ≤ mm ^ 2 := sq_nonneg mm
  have hπsqU : (2 * Real.pi) ^ 2 ≤ (2 * 3.141593) ^ 2 := by nlinarith
  have hπsqL : (2 * 3.141592) ^ 2 ≤ (2 * Real.pi) ^ 2 := by nlinarith
  have hlow : aLo ^ 3 ≤ MU_EARTH_KM3_S2 / (nRadS mm) ^ 2 := by
    rw [hbase, le_div_iff₀ hd1]
    nlinarith [mul_le_mul_of_nonneg_left hπsqU (mul_nonneg haLo3 hmm2)]
  have hupp : MU_EARTH_KM3_S2 / (nRadS mm) ^ 2 < aHi ^ 3 := by
    rw [hbase, div_lt_iff₀ hd1]
    nlinarith [mul_le_mul_of_nonneg_left hπsqL (mul_nonneg haHi3 hmm2)]
  have hcube := aKm_cube hmm
  have haK := aKm_pos hmm
  have hLoK : aLo ≤ aKm mm := by
    have h3 : aLo ^ (3 : ℕ) ≤ (aKm mm) ^ (3 : ℕ) := by rw [hcube]; exact hlow
    exact le_of_pow_le_pow_left₀ (by norm_num) haK.le h3
  have hHiK : aKm mm < aHi := by
    have h3 : (aKm mm) ^ (3 : ℕ) < aHi ^ (3 : ℕ) := by rw [hcube]; exact hupp
    by_contra hc
    push_neg at hc
    have := pow_le_pow_left₀ hHi hc 3
    linarith
  unfold altKmVal
  constructor <;> [linarith; linarith]

theorem mean_motion_some {mm : ℝ} (hmm : 0 < mm) (h0 : 0 ≤ altKmVal mm)
    (h1 : altKmVal mm ≤ 100000) :
    mean_motion_to_altitude_km mm = some (altKmVal mm) := by
  unfold mean_motion_to_altitude_km
  rw [if_neg (not_le.mpr hmm), if_neg (not_le.mpr (nRadS_pos hmm)),
    if_neg (by push_neg; exact ⟨h0, h1⟩)]

theorem pyRound_zero (n : ℕ) : pyRound n 0 = 0 := by
  simpa using pyRound_intCast n 0

theorem altKmVal_155 : 300 ≤ altKmVal 15.5 ∧ altKmVal 15.5 < 500 := by
  have hw := @altKmVal_window 15.5 6678.137 6878.137
    (by norm_num) (by norm_num) (by norm_num)
    (by norm_num [MU_EARTH_KM3_S2]) (by norm_num [MU_EARTH_KM3_S2])
  have e1 : (6678.137 : ℝ) - EARTH_RADIUS_KM = 300 := by norm_num [EARTH_RADIUS_KM]
  have e2 : (6878.137 : ℝ) - EARTH_RADIUS_KM = 500 := by norm_num [EARTH_RADIUS_KM]
  rw [e1, e2] at hw
  exact hw

theorem altKmVal_15 : 500 ≤ altKmVal 15 ∧ altKmVal 15 < 800 := by
  have hw := @altKmVal_window 15 6878.137 7178.137
    (by norm_num) (by norm_num) (by norm_num)
    (by norm_num [MU_EARTH_KM3_S2]) (by norm_num [MU_EARTH_KM3_S2])
  have e1 : (6878.137 : ℝ) - EARTH_RADIUS_KM = 500 := by norm_num [EARTH_RADIUS_KM]
  have e2 : (7178.137 : ℝ) - EARTH_RADIUS_KM = 800 := by norm_num [EARTH_RADIUS_KM]
  rw [e1, e2] at hw
  exact hw

theorem altKmVal_14 : 800 ≤ altKmVal 14 ∧ altKmVal 14 < 1200 := by
  have hw := @altKmVal_window 14 7178.137 7578.137
    (by norm_num) (by norm_num) (by norm_num)
    (by norm_num [MU_EARTH_KM3_S2]) (by norm_num [MU_EARTH_KM3_S2])
  have e1 : (7178.137 : ℝ) - EARTH_RADIUS_KM = 800 := by norm_num [EARTH_RADIUS_KM]
  have e2 : (7578.137 : ℝ) - EARTH_RADIUS_KM = 1200 := by norm_num [EARTH_RADIUS_KM]
  rw [e1, e2] at hw
  exact hw

theorem mean_motion_some_155 : mean_motion_to_altitude_km 15.5 = some (altKmVal 15.5) := by
  have h := altKmVal_155
  exact mean_motion_some (by norm_num) (by linarith [h.1]) (by linarith [h.2])

theorem mean_motion_some_15 : mean_motion_to_altitude_km 15 = some (altKmVal 15) := by
  have h := altKmVal_15
  exact mean_motion_some (by norm_num) (by linarith [h.1]) (by linarith [h.2])

theorem mean_motion_some_14 : mean_motion_to_altitude_km 14 = some (altKmVal 14) := by
  have h := altKmVal_14
  exact mean_motion_some (by norm_num) (by linarith [h.1]) (by linarith [h.2])

theorem zoneBinStep_mm155 (c : ZoneCounts) (obj : CatalogRow) (h : obj.mean_motion = 15.5) :
    zoneBinStep c obj = some { c with c1 := c.c1 + 1 } := by
  have hcast : ((obj.mean_motion : ℚ) : ℝ) = 15.5 := by rw [h]; norm_num
  have hb := altKmVal_155
  unfold zoneBinStep
  rw [hcast, mean_motion_some_155]
  dsimp only
  rw [if_pos ⟨hb.1, hb.2⟩]

theorem zoneBinStep_mm15 (c : ZoneCounts) (obj : CatalogRow) (h : obj.mean_motion = 15) :
    zoneBinStep c obj = some { c with c2 := c.c2 + 1 } := by
  have hcast : ((obj.mean_motion : ℚ) : ℝ) = 15 := by rw [h]; norm_num
  have hb := altKmVal_15
  unfold zoneBinStep
  rw [hcast, mean_motion_some_15]
  dsimp only
  rw [if_neg (by rintro ⟨-, h5⟩; linarith [hb.1]), if_pos ⟨hb.1, hb.2⟩]

theorem zoneBinStep_mm14 (c : ZoneCounts) (obj : CatalogRow) (h : obj.mean_motion = 14) :
    zoneBinStep c obj = some { c with c3 := c.c3 + 1 } := by
  have hcast : ((obj.mean_motion : ℚ) : ℝ) = 14 := by rw [h]; norm_num
  have hb := altKmVal_14
  unfold zoneBinStep
  rw [hcast, mean_motion_some_14]
  dsimp only
  rw [if_neg (by rintro ⟨-, h5⟩; linarith [hb.1]),
    if_neg (by rintro ⟨-, h8⟩; linarith [hb.1]), if_pos ⟨hb.1, hb.2⟩]

theorem zoneBinStep_nonpos (c : ZoneCounts) (obj : CatalogRow) (h : obj.mean_motion ≤ 0) :
    zoneBinStep c obj = none := by
  have hcast : ((obj.mean_motion : ℚ) : ℝ) ≤ 0 := by exact_mod_cast h
  unfold zoneBinStep
  rw [show mean_motion_to_altitude_km ((obj.mean_motion : ℚ) : ℝ) = none by
    unfold mean_motion_to_altitude_km; rw [if_pos hcast]]

theorem demo_binFold :
    List.foldlM zoneBinStep (⟨0, 0, 0, 0⟩ : ZoneCounts) [row155, row15, row15, row15]
      = some ⟨1, 3, 0, 0⟩ := by
  have s1 : zoneBinStep ⟨0, 0, 0, 0⟩ row155 = some ⟨1, 0, 0, 0⟩ :=
    zoneBinStep_mm155 _ _ rfl
  have s2 : zoneBinStep ⟨1, 0, 0, 0⟩ row15 = some ⟨1, 1, 0, 0⟩ :=
    zoneBinStep_mm15 _ _ rfl
  have s3 : zoneBinStep ⟨1, 1, 0, 0⟩ row15 = some ⟨1, 2, 0, 0⟩ :=
    zoneBinStep_mm15 _ _ rfl
  have s4 : zoneBinStep ⟨1, 2, 0, 0⟩ row15 = some ⟨1, 3, 0, 0⟩ :=
    zoneBinStep_mm15 _ _ rfl
  simp [List.foldlM_cons, List.foldlM_nil, s1, s2, s3, s4]

/-- C1: `classify_regime` agrees everywhere with the spec's ordered rule
list — LEO when `mean_motion ≥ 11.25` and `ecc < 0.25`, else GEO on the
closed band `[0.95, 1.05]`, else MEO on the open band `(1.05, 11.25)`,
else unclassified — and in particular `(11.25, 0) ↦ LEO`,
`(1.05, 0) ↦ GEO`, `(1.06, 0) ↦ MEO`, `(0.5, 0) ↦ none`,
`(10, 0.3) ↦ none`. -/
theorem C1_classify_regime_matches_spec :
    (∀ mm ecc : ℚ, classify_regime mm ecc = classifyRegimeClaim mm ecc) ∧
    classify_regime 11.25 0 = some Regime.LEO ∧
    classify_regime 1.05 0 = some Regime.GEO ∧
    classify_regime 1.06 0 = some Regime.MEO ∧
    classify_regime 0.5 0 = none ∧
    classify_regime 10 0.3 = none := by
  refine ⟨?_, ?_, ?_, ?_, ?_, ?_⟩
  · intro mm ecc
    by_cases h0 : mm ≤ 0
    · simp only [classify_regime, classifyRegimeClaim, if_pos h0]
      split_ifs with h1 h2 h3
      · exact absurd h1.1 (by intro h; linarith)
      · exact absurd h2.1 (by intro h; linarith)
      · exact absurd h3.1 (by intro h; linarith)
      · rfl
    · simp only [classify_regime, classifyRegimeClaim, if_neg h0]
  · simp only [classify_regime]; norm_num
  · simp only [classify_regime]; norm_num
  · simp only [classify_regime]; norm_num
  · simp only [classify_regime]; norm_num
  · simp only [classify_regime]; norm_num

/-- C2 counterexample: the claim quantifies over every integer `count` and
`cohort_max`, but `compute_zone_pressure 0 0 = 0 ≠ 100` (so "the cohort's own
maximum always maps to exactly 100.0" fails at `cohort_max = 0`), and for a
negative count the result `compute_zone_pressure (-1) 100 = -1` leaves the
claimed range `[0, 100]`. -/
theorem C2_pressure_index_counterexample :
    compute_zone_pressure 0 0 = 0 ∧ (0 : ℚ) ≠ 100 ∧
    compute_zone_pressure (-1) 100 = -1 ∧ ((-1 : ℚ) < 0) := by
  refine ⟨by simp [compute_zone_pressure], by norm_num, ?_, by norm_num⟩
  show compute_zone_pressure (-1) 100 = -1
  have h1 : min (100 : ℚ) (((-1 : ℤ) : ℚ) / ((100 : ℤ) : ℚ) * 100) = -1 := by norm_num
  simp only [compute_zone_pressure]
  norm_num [h1, pyRound, roundHalfEven]

/-- C2 (amended): `compute_zone_pressure count cohort_max` is `0` when
`cohort_max ≤ 0` and otherwise `round(min(100, count/cohort_max · 100), 1)`;
the result is in `[0, 100]` whenever `count ≥ 0` (not for negative counts),
it is monotone non-decreasing in `count`, the cohort maximum maps to exactly
`100` whenever `cohort_max > 0` (not when `cohort_max ≤ 0`), and the quoted
particular values all hold. -/
theorem C2_pressure_index_amended :
    (∀ c m : ℤ, m ≤ 0 → compute_zone_pressure c m = 0) ∧
    (∀ c m : ℤ, 0 < m →
      compute_zone_pressure c m = pyRound 1 (min 100 ((c : ℚ) / (m : ℚ) * 100))) ∧
    (∀ c m : ℤ, 0 ≤ c → 0 ≤ compute_zone_pressure c m ∧ compute_zone_pressure c m ≤ 100) ∧
    (∀ c1 c2 m : ℤ, c1 ≤ c2 → compute_zone_pressure c1 m ≤ compute_zone_pressure c2 m) ∧
    (∀ m : ℤ, 0 < m → compute_zone_pressure m m = 100) ∧
    compute_zone_pressure 0 100 = 0 ∧ compute_zone_pressure 100 100 = 100 ∧
    compute_zone_pressure 150 100 = 100 ∧ (∀ x : ℤ, compute_zone_pressure x 0 = 0) := by
  have hguard : ∀ c m : ℤ, m ≤ 0 → compute_zone_pressure c m = 0 := by
    intro c m hm
    simp [compute_zone_pressure, hm]
  have hformula : ∀ c m : ℤ, 0 < m →
      compute_zone_pressure c m = pyRound 1 (min 100 ((c : ℚ) / (m : ℚ) * 100)) := by
    intro c m hm
    simp [compute_zone_pressure, not_le.mpr hm]
  have hround0 : pyRound 1 ((0 : ℚ)) = 0 := by
    have := pyRound_intCast 1 0
    simpa using this
  have hround100 : pyRound 1 ((100 : ℚ)) = 100 := by
    have := pyRound_intCast 1 100
    simpa using this
  have hrange : ∀ c m : ℤ, 0 ≤ c →
      0 ≤ compute_zone_pressure c m ∧ compute_zone_pressure c m ≤ 100 := by
    intro c m hc
    by_cases hm : m ≤ 0
    · rw [hguard c m hm]
      norm_num
    · push_neg at hm
      rw [hformula c m hm]
      have hv0 : (0 : ℚ) ≤ min 100 ((c : ℚ) / (m : ℚ) * 100) := by
        apply le_min (by norm_num)
        have hcq : (0 : ℚ) ≤ (c : ℚ) := by exact_mod_cast hc
        have hmq : (0 : ℚ) < (m : ℚ) := by exact_mod_cast hm
        positivity
      have hv100 : min (100 : ℚ) ((c : ℚ) / (m : ℚ) * 100) ≤ 100 := min_le_left _ _
      constructor
      · have := pyRound_mono 1 hv0
        rw [hround0] at this
        exact this
      · have := pyRound_mono 1 hv100
        rw [hround100] at this
        exact this
  have hmono : ∀ c1 c2 m : ℤ, c1 ≤ c2 →
      compute_zone_pressure c1 m ≤ compute_zone_pressure c2 m := by
    intro c1 c2 m hc
    by_cases hm : m ≤ 0
    · rw [hguard c1 m hm, hguard c2 m hm]
    · push_neg at hm
      rw [hformula c1 m hm, hformula c2 m hm]
      apply pyRound_mono
      apply min_le_min (le_refl _)
      have hmq : (0 : ℚ) < (m : ℚ) := by exact_mod_cast hm
      have hcq : ((c1 : ℚ)) ≤ ((c2 : ℚ)) := by exact_mod_cast hc
      have := (div_le_div_iff_of_pos_right hmq).mpr hcq
      nlinarith
  have hmax : ∀ m : ℤ, 0 < m → compute_zone_pressure m m = 100 := by
    intro m hm
    rw [hformula m m hm]
    have hmq : ((m : ℚ)) ≠ 0 := by
      have : (0 : ℚ) < (m : ℚ) := by exact_mod_cast hm
      exact ne_of_gt this
    rw [div_self hmq, one_mul, min_self, hround100]
  refine ⟨hguard, hformula, hrange, hmono, hmax, ?_, ?_, ?_, fun x => hguard x 0 le_rfl⟩
  · rw [hformula 0 100 (by norm_num)]
    have : min (100 : ℚ) (((0 : ℤ) : ℚ) / ((100 : ℤ) : ℚ) * 100) = 0 := by norm_num
    rw [this, hround0]
  · exact hmax 100 (by norm_num)
  · rw [hformula 150 100 (by norm_num)]
    have : min (100 : ℚ) (((150 : ℤ) : ℚ) / ((100 : ℤ) : ℚ) * 100) = 100 := by norm_num
    rw [this, hround100]

/-- C2 witness: the amended theorem applied at concrete inputs, with every
hypothesis discharged there. -/
theorem C2_pressure_index_witness :
    ((-3 : ℤ) ≤ 0 ∧ compute_zone_pressure 7 (-3) = 0) ∧
    (0 < (100 : ℤ) ∧
      compute_zone_pressure 50 100 = pyRound 1 (min 100 (((50 : ℤ) : ℚ) / (((100 : ℤ)) : ℚ) * 100))) ∧
    ((0 : ℤ) ≤ 50 ∧ 0 ≤ compute_zone_pressure 50 100 ∧ compute_zone_pressure 50 100 ≤ 100) ∧
    ((30 : ℤ) ≤ 60 ∧ compute_zone_pressure 30 100 ≤ compute_zone_pressure 60 100) ∧
    (0 < (100 : ℤ) ∧ compute_zone_pressure 100 100 = 100) :=
  ⟨⟨by norm_num, C2_pressure_index_amended.1 7 (-3) (by norm_num)⟩,
   ⟨by norm_num, C2_pressure_index_amended.2.1 50 100 (by norm_num)⟩,
   ⟨by norm_num, C2_pressure_index_amended.2.2.1 50 100 (by norm_num)⟩,
   ⟨by norm_num, C2_pressure_index_amended.2.2.2.1 30 60 100 (by norm_num)⟩,
   ⟨by norm_num, C2_pressure_index_amended.2.2.2.2.1 100 (by norm_num)⟩⟩

/-- C10: over the Kepler closed form, the altitude is strictly decreasing
in the mean motion on `mean_motion > 0`; any value the function returns is
that closed form; and the function returns `none` exactly when
`mean_motion ≤ 0`, the derived `n ≤ 0`, or the closed-form altitude leaves
the sanity band `[0, 100000]` km. -/
theorem C10_altitude_from_mean_motion :
    (∀ m1 m2 : ℝ, 0 < m1 → m1 < m2 → altKmVal m2 < altKmVal m1) ∧
    (∀ mm a : ℝ, mean_motion_to_altitude_km mm = some a → a = altKmVal mm) ∧
    (∀ mm : ℝ, mean_motion_to_altitude_km mm = none ↔
      mm ≤ 0 ∨ nRadS mm ≤ 0 ∨ altKmVal mm < 0 ∨ altKmVal mm > 100000) := by
  refine ⟨?_, ?_, ?_⟩
  · intro m1 m2 h1 h12
    have h2 : 0 < m2 := h1.trans h12
    have hπ := Real.pi_pos
    have hn1 := nRadS_pos h1
    have hn2 := nRadS_pos h2
    have hnlt : nRadS m1 < nRadS m2 := by
      unfold nRadS
      have hm : m1 * 2 * Real.pi < m2 * 2 * Real.pi := by nlinarith
      linarith
    have hsq : (nRadS m1) ^ 2 < (nRadS m2) ^ 2 := by nlinarith
    have hdiv : MU_EARTH_KM3_S2 / (nRadS m2) ^ 2 < MU_EARTH_KM3_S2 / (nRadS m1) ^ 2 :=
      div_lt_div_of_pos_left (by norm_num [MU_EARTH_KM3_S2]) (by positivity) hsq
    have haK : aKm m2 < aKm m1 := by
      unfold aKm
      exact Real.rpow_lt_rpow (basePos h2).le hdiv (by norm_num)
    unfold altKmVal
    linarith
  · intro mm a h
    unfold mean_motion_to_altitude_km at h
    split_ifs at h
    exact (Option.some.inj h).symm
  · intro mm
    unfold mean_motion_to_altitude_km
    split_ifs with h1 h2 h3
    · exact iff_of_true rfl (Or.inl h1)
    · exact iff_of_true rfl (Or.inr (Or.inl h2))
    · exact iff_of_true rfl (Or.inr (Or.inr h3))
    · refine iff_of_false (by simp) ?_
      intro hor
      rcases hor with h | h | h
      · exact h1 h
      · exact h2 h
      · exact h3 h

/-- C10 witness: the strict-decrease part of the theorem applied at the
concrete mean motions 15 and 16 rev/day. -/
theorem C10_altitude_witness : 0 < (15 : ℝ) ∧ (15 : ℝ) < 16 ∧ altKmVal 16 < altKmVal 15 :=
  ⟨by norm_num, by norm_num,
    C10_altitude_from_mean_motion.1 15 16 (by norm_num) (by norm_num)⟩

/-- C7: the snapshot builder's zone aggregation
(`compute_leo_zones_from_active_catalog`) aborts with an uncaught
`TypeError` on a record with no derivable altitude (here `mean_motion = 0`,
which the loader can produce from a blank `MEAN_MOTION` field), and it
counts a record with eccentricity `0.5` that the LEO regime filter should
exclude — while `count_active_leo_zones`, the endpoint-side aggregation the
claim describes, excludes both records and completes. -/
theorem C7_zone_aggregation_divergence :
    compute_leo_zones_from_active_catalog [row0] = none ∧
    count_active_leo_zones [row0] = [] ∧
    compute_leo_zones_from_active_catalog [row15e] =
      some [⟨"LEO-1", 0, 0⟩, ⟨"LEO-2", 1, 100⟩, ⟨"LEO-3", 0, 0⟩, ⟨"LEO-4", 0, 0⟩] ∧
    count_active_leo_zones [row15e] = [] := by
  have e0 : pyRound 2 ((0 : ℚ)) = 0 := pyRound_zero 2
  have e100 : pyRound 2 ((100 : ℚ)) = 100 := by simpa using pyRound_intCast 2 100
  refine ⟨?_, ?_, ?_, ?_⟩
  · have hb : zoneBinStep ⟨0, 0, 0, 0⟩ row0 = none :=
      zoneBinStep_nonpos _ _ (by norm_num [row0])
    simp [compute_leo_zones_from_active_catalog, List.foldlM_cons, List.foldlM_nil, hb]
  · have hcond : ¬((11.25 : ℚ) ≤ row0.mean_motion ∧ row0.eccentricity < 0.25) := by
      norm_num [row0]
    simp only [count_active_leo_zones, List.foldl_cons, List.foldl_nil]
    rw [if_pos hcond]
  · have hb : zoneBinStep ⟨0, 0, 0, 0⟩ row15e = some ⟨0, 1, 0, 0⟩ :=
      zoneBinStep_mm15 _ _ rfl
    have hrows : zoneRowsFromCounts ⟨0, 1, 0, 0⟩ =
        [⟨"LEO-1", 0, 0⟩, ⟨"LEO-2", 1, 100⟩, ⟨"LEO-3", 0, 0⟩, ⟨"LEO-4", 0, 0⟩] := by
      norm_num [zoneRowsFromCounts, e0, e100]
    simp [compute_leo_zones_from_active_catalog, List.foldlM_cons, List.foldlM_nil, hb, hrows]
  · have hcond : ¬((11.25 : ℚ) ≤ row15e.mean_motion ∧ row15e.eccentricity < 0.25) := by
      norm_num [row15e]
    simp only [count_active_leo_zones, List.foldl_cons, List.foldl_nil]
    rw [if_pos hcond]

/-- C6 counterexample: on the concrete catalog
`[row155, row15, row15, row15]` the builder's zone counts are
`(1, 3, 0, 0)` and the LEO-1 zpi is `round((1/3)·100, 2) = 33.33`, which is
not the one-decimal pressure index `pressureIndex(1, 3) = 33.3`: the
builder does not compute zpi via the Pressure Index Calculator. -/
theorem C6_zpi_counterexample :
    compute_leo_zones_from_active_catalog [row155, row15, row15, row15] =
      some [⟨"LEO-1", 1, 3333/100⟩, ⟨"LEO-2", 3, 100⟩, ⟨"LEO-3", 0, 0⟩, ⟨"LEO-4", 0, 0⟩] ∧
    compute_zone_pressure 1 3 = 333/10 ∧ ((3333 : ℚ)/100) ≠ 333/10 := by
  refine ⟨?_, ?_, by norm_num⟩
  · have e0 : pyRound 2 ((0 : ℚ)) = 0 := pyRound_zero 2
    have e100 : pyRound 2 ((100 : ℚ)) = 100 := by simpa using pyRound_intCast 2 100
    have e13 : pyRound 2 ((100 : ℚ)/3) = 3333/100 := by
      norm_num [pyRound, roundHalfEven]
    have hrows : zoneRowsFromCounts ⟨1, 3, 0, 0⟩ =
        [⟨"LEO-1", 1, 3333/100⟩, ⟨"LEO-2", 3, 100⟩, ⟨"LEO-3", 0, 0⟩, ⟨"LEO-4", 0, 0⟩] := by
      norm_num [zoneRowsFromCounts, e0, e100]
      exact e13
    unfold compute_leo_zones_from_active_catalog
    rw [demo_binFold]
    exact congrArg some hrows
  · have hmin : min (100 : ℚ) (((1 : ℤ) : ℚ) / ((3 : ℤ) : ℚ) * 100) = 100/3 := by norm_num
    simp only [compute_zone_pressure]
    rw [if_neg (by norm_num), hmin]
    norm_num [pyRound, roundHalfEven]

/-- C6 (amended): the snapshot builder produces, from its bin counts, all
four zone rows in order with the given counts; each zpi equals
`round(count / (max(counts) or 1) · 100, 2)` — a cohort-relative
normalization with divisor floor 1 but rounded to two decimals rather than
the one-decimal pressure index; zero-count zones get zpi `0.0`; the
all-zero snapshot yields all zpi `0.0`; counts `(10, 40, 5, 0)` yield zpi
`(25.0, 100.0, 12.5, 0.0)`. -/
theorem C6_zone_zpi_amended :
    (∀ objs c, List.foldlM zoneBinStep (⟨0, 0, 0, 0⟩ : ZoneCounts) objs = some c →
      compute_leo_zones_from_active_catalog objs = some (zoneRowsFromCounts c)) ∧
    (∀ c : ZoneCounts, (zoneRowsFromCounts c).map ZoneOut.zone_label
        = ["LEO-1", "LEO-2", "LEO-3", "LEO-4"] ∧
      (zoneRowsFromCounts c).map ZoneOut.count = [c.c1, c.c2, c.c3, c.c4]) ∧
    (∀ c : ZoneCounts, ∀ z ∈ zoneRowsFromCounts c, z.count = 0 → z.zpi = 0) ∧
    zoneRowsFromCounts ⟨0, 0, 0, 0⟩ =
      [⟨"LEO-1", 0, 0⟩, ⟨"LEO-2", 0, 0⟩, ⟨"LEO-3", 0, 0⟩, ⟨"LEO-4", 0, 0⟩] ∧
    zoneRowsFromCounts ⟨10, 40, 5, 0⟩ =
      [⟨"LEO-1", 10, 25⟩, ⟨"LEO-2", 40, 100⟩, ⟨"LEO-3", 5, 25/2⟩, ⟨"LEO-4", 0, 0⟩] := by
  have e0 : pyRound 2 ((0 : ℚ)) = 0 := pyRound_zero 2
  have e100 : pyRound 2 ((100 : ℚ)) = 100 := by simpa using pyRound_intCast 2 100
  have e25 : pyRound 2 ((25 : ℚ)) = 25 := by simpa using pyRound_intCast 2 25
  refine ⟨?_, ?_, ?_, ?_, ?_⟩
  · intro objs c h
    unfold compute_leo_zones_from_active_catalog
    rw [h]
    rfl
  · intro c
    constructor <;> simp [zoneRowsFromCounts]
  · intro c z hz h0
    have hcases : z = ⟨"LEO-1", c.c1, pyRound 2 ((c.c1 : ℚ) /
          ((if max (max (max c.c1 c.c2) c.c3) c.c4 = 0 then 1
            else max (max (max c.c1 c.c2) c.c3) c.c4 : ℕ) : ℚ) * 100)⟩ ∨
        z = ⟨"LEO-2", c.c2, pyRound 2 ((c.c2 : ℚ) /
          ((if max (max (max c.c1 c.c2) c.c3) c.c4 = 0 then 1
            else max (max (max c.c1 c.c2) c.c3) c.c4 : ℕ) : ℚ) * 100)⟩ ∨
        z = ⟨"LEO-3", c.c3, pyRound 2 ((c.c3 : ℚ) /
          ((if max (max (max c.c1 c.c2) c.c3) c.c4 = 0 then 1
            else max (max (max c.c1 c.c2) c.c3) c.c4 : ℕ) : ℚ) * 100)⟩ ∨
        z = ⟨"LEO-4", c.c4, pyRound 2 ((c.c4 : ℚ) /
          ((if max (max (max c.c1 c.c2) c.c3) c.c4 = 0 then 1
            else max (max (max c.c1 c.c2) c.c3) c.c4 : ℕ) : ℚ) * 100)⟩ := by
      simpa [zoneRowsFromCounts] using hz
    rcases hcases with h | h | h | h <;>
      · subst h
        simp only [ZoneOut.count] at h0
        simp [h0, e0]
  · norm_num [zoneRowsFromCounts, e0]
  · norm_num [zoneRowsFromCounts, e0, e100, e25]
    norm_num [pyRound, roundHalfEven]

/-- C6 witness: the amended theorem applied to the concrete catalog
`[row155, row15, row15, row15]` (bin counts `(1, 3, 0, 0)`), with its
hypotheses discharged by explicit evaluation. -/
theorem C6_zone_zpi_witness :
    List.foldlM zoneBinStep (⟨0, 0, 0, 0⟩ : ZoneCounts) [row155, row15, row15, row15]
      = some ⟨1, 3, 0, 0⟩ ∧
    compute_leo_zones_from_active_catalog [row155, row15, row15, row15]
      = some (zoneRowsFromCounts ⟨1, 3, 0, 0⟩) :=
  ⟨demo_binFold, C6_zone_zpi_amended.1 [row155, row15, row15, row15] ⟨1, 3, 0, 0⟩ demo_binFold⟩

/-- C3: on a store where filename order and content-timestamp order
disagree, the history reader actually used by every endpoint
(`_load_history_files`) returns the records in FILENAME order — here the
later timestamp first — while the unused `load_history_points`
implements the claimed content-timestamp order. -/
theorem C3_readAll_filename_order_divergence :
    load_history_files true [fileA, fileB] = [payloadA, payloadB] ∧
    List.lookup "snapshot_time_utc" payloadA = some (JVal.str "2026-01-02T00:00:00Z") ∧
    List.lookup "snapshot_time_utc" payloadB = some (JVal.str "2026-01-01T00:00:00Z") ∧
    pyStrLt "2026-01-01T00:00:00Z" "2026-01-02T00:00:00Z" = true ∧
    load_history_points [fileA, fileB] = some [payloadB, payloadA] := by
  refine ⟨rfl, rfl, rfl, by decide, rfl⟩

/-- C4: the generation tool refuses with exit code 2 (writing nothing)
when the latest stored record carries the same source timestamp and
`--force` is absent; refuses with exit code 1 (writing nothing) when the
target file exists and `--force` is absent; and with `--force` both
guards are bypassed and the write happens with exit code 0.  The two
refusal codes are non-zero and distinct. -/
theorem C4_generation_tool_guards :
    (∀ (store : HistStore) (date out : Option String) (dts now today : String)
        (ar : ℤ × ℤ × ℤ) (zs : List ZoneOut) (tr : ℤ × ℤ × ℤ × ℤ) (l : SnapshotFile),
      read_latest_history_snapshot store = some l →
      l.data_snapshot_time_utc = some dts →
      make_history_snapshot_main date out false dts now today ar zs tr store = (2, store)) ∧
    (∀ (store : HistStore) (date out : Option String) (dts now today : String)
        (ar : ℤ × ℤ × ℤ) (zs : List ZoneOut) (tr : ℤ × ℤ × ℤ × ℤ),
      (∀ l, read_latest_history_snapshot store = some l →
        l.data_snapshot_time_utc ≠ some dts) →
      (store.any fun f => f.1 = snapshotOutPath date out today) = true →
      make_history_snapshot_main date out false dts now today ar zs tr store = (1, store)) ∧
    (∀ (store : HistStore) (date out : Option String) (dts now today : String)
        (ar : ℤ × ℤ × ℤ) (zs : List ZoneOut) (tr : ℤ × ℤ × ℤ × ℤ),
      make_history_snapshot_main date out true dts now today ar zs tr store =
        (0, storeWrite store (snapshotOutPath date out today) ⟨now, some dts, ar, zs, tr⟩)) ∧
    ((2 : ℤ) ≠ 0 ∧ (1 : ℤ) ≠ 0 ∧ (2 : ℤ) ≠ 1) := by
  refine ⟨?_, ?_, ?_, by norm_num, by norm_num, by norm_num⟩
  · intro store date out dts now today ar zs tr l hl hdts
    simp [make_history_snapshot_main, hl, hdts]
  · intro store date out dts now today ar zs tr hno hex
    cases hlat : read_latest_history_snapshot store with
    | none => simp [make_history_snapshot_main, hlat, hex]
    | some l =>
      have hne : (l.data_snapshot_time_utc == some dts) = false := by
        exact beq_eq_false_iff_ne.mpr (hno l hlat)
      simp [make_history_snapshot_main, hlat, hne, hex]
  · intro store date out dts now today ar zs tr
    simp [make_history_snapshot_main]

/-- C4 witness: the three guard behaviours at concrete stores, with each
hypothesis discharged by evaluation. -/
theorem C4_generation_tool_witness :
    (read_latest_history_snapshot demoStore1 = some demoSnap1 ∧
      demoSnap1.data_snapshot_time_utc = some "2026-01-07T06:00:00Z" ∧
      make_history_snapshot_main none none false "2026-01-07T06:00:00Z"
        "2026-01-08T06:54:22Z" "2026-01-08" (1, 2, 3) [] (0, 0, 0, 0) demoStore1
        = (2, demoStore1)) ∧
    ((demoStore2.any fun f =>
        f.1 = snapshotOutPath none (some "2026-01-06.json") "2026-01-08") = true ∧
      make_history_snapshot_main none (some "2026-01-06.json") false "2026-01-07T06:00:00Z"
        "2026-01-08T06:54:22Z" "2026-01-08" (1, 2, 3) [] (0, 0, 0, 0) demoStore2
        = (1, demoStore2)) ∧
    make_history_snapshot_main none (some "x.json") true "2026-01-07T06:00:00Z"
        "2026-01-08T06:54:22Z" "2026-01-08" (1, 2, 3) [] (0, 0, 0, 0) demoStore2
      = (0, storeWrite demoStore2 "x.json"
          ⟨"2026-01-08T06:54:22Z", some "2026-01-07T06:00:00Z", (1, 2, 3), [], (0, 0, 0, 0)⟩) := by
  refine ⟨⟨rfl, rfl, ?_⟩, ⟨by decide, ?_⟩, ?_⟩
  · exact C4_generation_tool_guards.1 demoStore1 none none "2026-01-07T06:00:00Z"
      "2026-01-08T06:54:22Z" "2026-01-08" (1, 2, 3) [] (0, 0, 0, 0) demoSnap1 rfl rfl
  · refine C4_generation_tool_guards.2.1 demoStore2 none (some "2026-01-06.json")
      "2026-01-07T06:00:00Z" "2026-01-08T06:54:22Z" "2026-01-08" (1, 2, 3) [] (0, 0, 0, 0)
      ?_ (by decide)
    intro l hl
    have h2 : demoSnap2 = l := Option.some.inj hl
    rw [← h2]
    decide
  · exact C4_generation_tool_guards.2.2.1 demoStore2 none (some "x.json")
      "2026-01-07T06:00:00Z" "2026-01-08T06:54:22Z" "2026-01-08" (1, 2, 3) [] (0, 0, 0, 0)

/-! ### Helper lemmas for the delta engine -/

theorem regime_points_delta_law (prev : Option (ℤ × ℤ × ℤ)) (snaps : List SnapAR) :
    ∀ (i : ℕ) (h1 : i + 1 < (ori_history_active_regimes_points prev snaps).length)
      (h0 : i < (ori_history_active_regimes_points prev snaps).length),
      ((ori_history_active_regimes_points prev snaps).get ⟨i + 1, h1⟩).delta_leo
          = ((ori_history_active_regimes_points prev snaps).get ⟨i + 1, h1⟩).leo_active
            - ((ori_history_active_regimes_points prev snaps).get ⟨i, h0⟩).leo_active ∧
      ((ori_history_active_regimes_points prev snaps).get ⟨i + 1, h1⟩).delta_meo
          = ((ori_history_active_regimes_points prev snaps).get ⟨i + 1, h1⟩).meo_active
            - ((ori_history_active_regimes_points prev snaps).get ⟨i, h0⟩).meo_active ∧
      ((ori_history_active_regimes_points prev snaps).get ⟨i + 1, h1⟩).delta_geo
          = ((ori_history_active_regimes_points prev snaps).get ⟨i + 1, h1⟩).geo_active
            - ((ori_history_active_regimes_points prev snaps).get ⟨i, h0⟩).geo_active := by
  induction snaps generalizing prev with
  | nil =>
    intro i h1 h0
    simp [ori_history_active_regimes_points] at h1
  | cons s rest ih =>
    intro i h1 h0
    cases i with
    | zero =>
      cases rest with
      | nil => simp [ori_history_active_regimes_points] at h1
      | cons r rest2 =>
        rcases prev with _ | ⟨⟨pl, pm, pg⟩⟩ <;>
          exact ⟨rfl, rfl, rfl⟩
    | succ j =>
      exact ih (some (arLeo s, arMeo s, arGeo s)) j
        (Nat.lt_of_succ_lt_succ h1) (Nat.lt_of_succ_lt_succ h0)

theorem zoneRowOf_label (inc : Bool) (prevMap : Option (List (String × ℚ × ℚ)))
    (currMap : List (String × ℚ × ℚ)) (label : String) :
    (zoneRowOf inc prevMap currMap label).zone_label = label := rfl

theorem zoneRowOf_noprev (inc : Bool) (currMap : List (String × ℚ × ℚ)) (label : String) :
    zoneRowOf inc none currMap label =
      ⟨label, pyInt ((lookupMap currMap label).getD (0, 0)).1,
        ((lookupMap currMap label).getD (0, 0)).2, 0, pyRound 3 0⟩ := by
  cases inc <;> rfl

theorem zoneRowOf_absent (inc : Bool) (m1 m2 : List (String × ℚ × ℚ)) (label : String)
    (h : lookupMap m1 label = none) :
    zoneRowOf inc (some m1) m2 label =
      ⟨label, pyInt ((lookupMap m2 label).getD (0, 0)).1,
        ((lookupMap m2 label).getD (0, 0)).2, 0, pyRound 3 0⟩ := by
  cases inc with
  | false => rfl
  | true =>
    cases hm : m1.isEmpty with
    | false => simp [zoneRowOf, hm, h]
    | true => simp [zoneRowOf, hm]

/-- C5 counterexample: in the zone-history endpoint, the label `LEO-9`
(absent from the previous point, current count 7, current zpi 30) gets
`delta_count = 0` and `delta_zpi = 0`, not its current values as the
claim states. -/
theorem C5_endpoint_absent_label_counterexample :
    ori_history_leo_zones_points true none [snapZ1, snapZ2] =
      [("2026-01-01T00:00:00Z",
        (sortByKey id ((buildCurrMap (snapZonesRaw snapZ1)).map Prod.fst)).map
          (zoneRowOf true none (buildCurrMap (snapZonesRaw snapZ1)))),
       ("2026-01-02T00:00:00Z",
        (sortByKey id ((buildCurrMap (snapZonesRaw snapZ2)).map Prod.fst)).map
          (zoneRowOf true (some (buildCurrMap (snapZonesRaw snapZ1)))
            (buildCurrMap (snapZonesRaw snapZ2))))] ∧
    sortByKey id ((buildCurrMap (snapZonesRaw snapZ2)).map Prod.fst) = ["LEO-1", "LEO-9"] ∧
    lookupMap (buildCurrMap (snapZonesRaw snapZ2)) "LEO-9" = some (7, 30) ∧
    lookupMap (buildCurrMap (snapZonesRaw snapZ1)) "LEO-9" = none ∧
    zoneRowOf true (some (buildCurrMap (snapZonesRaw snapZ1)))
        (buildCurrMap (snapZonesRaw snapZ2)) "LEO-9"
      = ⟨"LEO-9", 7, 30, 0, 0⟩ ∧
    (0 : ℤ) ≠ 7 ∧ (0 : ℚ) ≠ 30 := by
  refine ⟨rfl, rfl, rfl, rfl, ?_, by norm_num, by norm_num⟩
  rw [zoneRowOf_absent true (buildCurrMap (snapZonesRaw snapZ1))
    (buildCurrMap (snapZonesRaw snapZ2)) "LEO-9" rfl]
  have h7 : pyInt ((7 : ℚ)) = 7 := by norm_num [pyInt]
  have hz : pyRound 3 (0 : ℚ) = 0 := pyRound_zero 3
  show LEOZoneHistoryRow.mk "LEO-9" (pyInt (7 : ℚ)) 30 0 (pyRound 3 0) = ⟨"LEO-9", 7, 30, 0, 0⟩
  rw [h7, hz]

/-- C5 (amended): the first point of a window has all deltas 0 (regime
and zone alike); every later regime point satisfies
`delta = current − previous` exactly; the pairwise helper
`_compute_zone_deltas` treats a `zone_label` absent from the previous
point as baseline 0, so its delta equals the current value; the
zone-history endpoint instead emits delta 0 for a label absent from the
previous point of its window. -/
theorem C5_delta_engine_amended :
    (∀ (s : SnapAR) (rest : List SnapAR) (p : RegimePoint),
      (ori_history_active_regimes_points none (s :: rest)).head? = some p →
      p.delta_leo = 0 ∧ p.delta_meo = 0 ∧ p.delta_geo = 0) ∧
    (∀ (prev : Option (ℤ × ℤ × ℤ)) (snaps : List SnapAR) (i : ℕ)
        (h1 : i + 1 < (ori_history_active_regimes_points prev snaps).length)
        (h0 : i < (ori_history_active_regimes_points prev snaps).length),
      ((ori_history_active_regimes_points prev snaps).get ⟨i + 1, h1⟩).delta_leo
          = ((ori_history_active_regimes_points prev snaps).get ⟨i + 1, h1⟩).leo_active
            - ((ori_history_active_regimes_points prev snaps).get ⟨i, h0⟩).leo_active ∧
      ((ori_history_active_regimes_points prev snaps).get ⟨i + 1, h1⟩).delta_meo
          = ((ori_history_active_regimes_points prev snaps).get ⟨i + 1, h1⟩).meo_active
            - ((ori_history_active_regimes_points prev snaps).get ⟨i, h0⟩).meo_active ∧
      ((ori_history_active_regimes_points prev snaps).get ⟨i + 1, h1⟩).delta_geo
          = ((ori_history_active_regimes_points prev snaps).get ⟨i + 1, h1⟩).geo_active
            - ((ori_history_active_regimes_points prev snaps).get ⟨i, h0⟩).geo_active) ∧
    (∀ (prevP curP : ZPoint) (z : ZDict),
      z ∈ curP.zones.getD [] →
      prevMapLookup (prevP.zones.getD []) z.zone_label = none →
      (⟨z, pyInt (z.count.getD (z.estimated_object_count.getD 0)),
          z.zpi.getD (z.zone_pressure_index.getD 0)⟩ : ZDeltaOut)
        ∈ (compute_zone_deltas prevP curP).2) ∧
    (∀ (s1 s2 : SnapZ),
      ori_history_leo_zones_points true none [s1, s2] =
        [(s1.snapshot_time_utc.getD "unknown",
          (sortByKey id ((buildCurrMap (snapZonesRaw s1)).map Prod.fst)).map
            (zoneRowOf true none (buildCurrMap (snapZonesRaw s1)))),
         (s2.snapshot_time_utc.getD "unknown",
          (sortByKey id ((buildCurrMap (snapZonesRaw s2)).map Prod.fst)).map
            (zoneRowOf true (some (buildCurrMap (snapZonesRaw s1)))
              (buildCurrMap (snapZonesRaw s2))))]) ∧
    (∀ (m1 m2 : List (String × ℚ × ℚ)) (label : String),
      lookupMap m1 label = none →
      (zoneRowOf true (some m1) m2 label).delta_count = 0 ∧
      (zoneRowOf true (some m1) m2 label).delta_zpi = 0) ∧
    (∀ (s : SnapZ) (rest : List SnapZ) (t : String) (rows : List LEOZoneHistoryRow)
        (row : LEOZoneHistoryRow),
      (ori_history_leo_zones_points true none (s :: rest)).head? = some (t, rows) →
      row ∈ rows → row.delta_count = 0 ∧ row.delta_zpi = 0) := by
  refine ⟨?_, regime_points_delta_law, ?_, fun s1 s2 => rfl, ?_, ?_⟩
  · intro s rest p h
    have h2 : regimePointOf none s = p := Option.some.inj h
    rw [← h2]
    exact ⟨rfl, rfl, rfl⟩
  · intro prevP curP z hz hlook
    show _ ∈ (curP.zones.getD []).map _
    have heq :
        (⟨z, pyInt (z.count.getD (z.estimated_object_count.getD 0)),
            z.zpi.getD (z.zone_pressure_index.getD 0)⟩ : ZDeltaOut)
          = ⟨z, pyInt (z.count.getD (z.estimated_object_count.getD 0))
                - pyInt (emptyZDict.count.getD (emptyZDict.estimated_object_count.getD 0)),
              z.zpi.getD (z.zone_pressure_index.getD 0)
                - emptyZDict.zpi.getD (emptyZDict.zone_pressure_index.getD 0)⟩ := by
      simp [emptyZDict, pyInt]
    rw [heq]
    have hmem := List.mem_map_of_mem
      (fun z : ZDict =>
        (⟨z, pyInt (z.count.getD (z.estimated_object_count.getD 0))
            - pyInt (((prevMapLookup (prevP.zones.getD []) z.zone_label).getD
                emptyZDict).count.getD
                (((prevMapLookup (prevP.zones.getD []) z.zone_label).getD
                  emptyZDict).estimated_object_count.getD 0)),
          z.zpi.getD (z.zone_pressure_index.getD 0)
            - (((prevMapLookup (prevP.zones.getD []) z.zone_label).getD
                emptyZDict).zpi.getD
                (((prevMapLookup (prevP.zones.getD []) z.zone_label).getD
                  emptyZDict).zone_pressure_index.getD 0))⟩ : ZDeltaOut))
      hz
    simpa [hlook] using hmem
  · intro m1 m2 label h
    rw [zoneRowOf_absent true m1 m2 label h]
    exact ⟨rfl, pyRound_zero 3⟩
  · intro s rest t rows row h hrow
    have h2 := Option.some.inj h
    have hrows : (sortByKey id ((buildCurrMap (snapZonesRaw s)).map Prod.fst)).map
        (zoneRowOf true none (buildCurrMap (snapZonesRaw s))) = rows :=
      congrArg Prod.snd h2
    rw [← hrows] at hrow
    obtain ⟨label, hmem, hlabel⟩ := List.mem_map.mp hrow
    rw [← hlabel, zoneRowOf_noprev]
    exact ⟨rfl, pyRound_zero 3⟩

/-- C5 witness: the amended theorem applied at the concrete two-snapshot
windows, with every hypothesis discharged by evaluation. -/
theorem C5_delta_engine_witness :
    ((regimePointOf none arS1).delta_leo = 0 ∧ (regimePointOf none arS1).delta_meo = 0 ∧
      (regimePointOf none arS1).delta_geo = 0) ∧
    (((ori_history_active_regimes_points none [arS1, arS2]).get
          ⟨0 + 1, by decide⟩).delta_leo
        = ((ori_history_active_regimes_points none [arS1, arS2]).get
            ⟨0 + 1, by decide⟩).leo_active
          - ((ori_history_active_regimes_points none [arS1, arS2]).get
            ⟨0, by decide⟩).leo_active) ∧
    ((⟨zdS2b, pyInt (zdS2b.count.getD (zdS2b.estimated_object_count.getD 0)),
        zdS2b.zpi.getD (zdS2b.zone_pressure_index.getD 0)⟩ : ZDeltaOut)
      ∈ (compute_zone_deltas ⟨some "2026-01-01T00:00:00Z", some [zdS1]⟩
          ⟨some "2026-01-02T00:00:00Z", some [zdS2a, zdS2b]⟩).2) ∧
    ((zoneRowOf true (some [("LEO-1", ((5 : ℚ), (10 : ℚ)))])
        [("LEO-1", ((6 : ℚ), (12 : ℚ))), ("LEO-9", ((7 : ℚ), (30 : ℚ)))] "LEO-9").delta_count = 0 ∧
      (zoneRowOf true (some [("LEO-1", ((5 : ℚ), (10 : ℚ)))])
        [("LEO-1", ((6 : ℚ), (12 : ℚ))), ("LEO-9", ((7 : ℚ), (30 : ℚ)))] "LEO-9").delta_zpi = 0) ∧
    ((zoneRowOf true none (buildCurrMap (snapZonesRaw snapZ1)) "LEO-1").delta_count = 0 ∧
      (zoneRowOf true none (buildCurrMap (snapZonesRaw snapZ1)) "LEO-1").delta_zpi = 0) := by
  refine ⟨?_, ?_, ?_, ?_, ?_⟩
  · exact C5_delta_engine_amended.1 arS1 [arS2] (regimePointOf none arS1) rfl
  · exact (C5_delta_engine_amended.2.1 none [arS1, arS2] 0 (by decide) (by decide)).1
  · exact C5_delta_engine_amended.2.2.1
      ⟨some "2026-01-01T00:00:00Z", some [zdS1]⟩
      ⟨some "2026-01-02T00:00:00Z", some [zdS2a, zdS2b]⟩ zdS2b
      (List.mem_cons_of_mem _ (List.mem_cons_self _ _)) rfl
  · exact C5_delta_engine_amended.2.2.2.2.1 [("LEO-1", ((5 : ℚ), (10 : ℚ)))]
      [("LEO-1", ((6 : ℚ), (12 : ℚ))), ("LEO-9", ((7 : ℚ), (30 : ℚ)))] "LEO-9" rfl
  · exact C5_delta_engine_amended.2.2.2.2.2 snapZ1 [snapZ2] "2026-01-01T00:00:00Z"
      ((sortByKey id ((buildCurrMap (snapZonesRaw snapZ1)).map Prod.fst)).map
        (zoneRowOf true none (buildCurrMap (snapZonesRaw snapZ1))))
      (zoneRowOf true none (buildCurrMap (snapZonesRaw snapZ1)) "LEO-1") rfl
      (List.mem_map_of_mem _ (List.mem_singleton_self "LEO-1"))

/-- C8 counterexample: two fully valid stored records that share their
SOURCE timestamp (`data_snapshot_time_utc`) while differing in
generation timestamp produce no problem at all and exit status 0 — the
validator never reads the source-timestamp field, so sharing one source
timestamp is not reported, contrary to the claim. -/
theorem C8_validator_counterexample :
    validate_history (fun _ => true) true [vfile1, vfile2] = [] ∧
    validate_history_exit (fun _ => true) true [vfile1, vfile2] = 0 ∧
    dGet vpayload1 "data_snapshot_time_utc" = some (JVal.str "2026-01-01T00:00:00Z") ∧
    dGet vpayload2 "data_snapshot_time_utc" = some (JVal.str "2026-01-01T00:00:00Z") := by
  refine ⟨by decide, by decide, rfl, rfl⟩

/-! ### Helper lemmas for the validator -/

theorem lookup_append_of_some {α β : Type} [BEq α] (l1 l2 : List (α × β)) (s : α) (v : β)
    (h : List.lookup s l1 = some v) : List.lookup s (l1 ++ l2) = some v := by
  induction l1 with
  | nil => simp [List.lookup] at h
  | cons kw rest ih =>
    rcases kw with ⟨k, w⟩
    rw [List.cons_append]
    simp only [List.lookup] at h ⊢
    cases hk : (s == k) with
    | true => rw [hk] at h; simpa [hk] using h
    | false => rw [hk] at h; simpa [hk] using ih h

theorem lookup_append_of_none {α β : Type} [BEq α] (l1 l2 : List (α × β)) (s : α)
    (h : List.lookup s l1 = none) : List.lookup s (l1 ++ l2) = List.lookup s l2 := by
  induction l1 with
  | nil => simp
  | cons kw rest ih =>
    rcases kw with ⟨k, w⟩
    rw [List.cons_append]
    simp only [List.lookup] at h ⊢
    cases hk : (s == k) with
    | true => rw [hk] at h; simp at h
    | false => rw [hk] at h; simpa [hk] using ih h

theorem stCheck_seen_cases (p : String → Bool) (fname : String)
    (data : List (String × JVal)) (seen : List (String × String)) :
    (stCheck p fname data seen).2 = seen ∨
    ∃ s, dGet data "snapshot_time_utc" = some (JVal.str s) ∧ pyStrip s ≠ "" ∧
      List.lookup s seen = none ∧
      (stCheck p fname data seen).2 = seen ++ [(s, fname)] := by
  unfold stCheck
  cases hst : dGet data "snapshot_time_utc" with
  | none => exact Or.inl rfl
  | some v =>
    cases v with
    | str s =>
      dsimp only
      by_cases hstrip : pyStrip s = ""
      · rw [if_pos hstrip]
        exact Or.inl rfl
      · rw [if_neg hstrip]
        cases hl : List.lookup s seen with
        | some f0 => exact Or.inl rfl
        | none => exact Or.inr ⟨s, rfl, hstrip, hl, rfl⟩
    | null => exact Or.inl rfl
    | bool b => exact Or.inl rfl
    | num q => exact Or.inl rfl
    | arr l => exact Or.inl rfl
    | obj l => exact Or.inl rfl

theorem stOf_eq_some (f : HFile) (s : String) (h : stOf f = some s) :
    ∃ data, f.2 = some data ∧ dGet data "snapshot_time_utc" = some (JVal.str s) ∧
      pyStrip s ≠ "" := by
  obtain ⟨fname, content⟩ := f
  cases content with
  | none => cases h
  | some data =>
    unfold stOf at h
    dsimp only at h
    cases hst : dGet data "snapshot_time_utc" with
    | none =>
      rw [hst] at h
      cases h
    | some v =>
      rw [hst] at h
      cases v with
      | str t =>
        dsimp only at h
        by_cases hstrip : pyStrip t = ""
        · rw [if_pos hstrip] at h
          cases h
        · rw [if_neg hstrip] at h
          have ht : t = s := Option.some.inj h
          subst ht
          exact ⟨data, rfl, hst, hstrip⟩
      | null => dsimp only at h; cases h
      | bool b => dsimp only at h; cases h
      | num q => dsimp only at h; cases h
      | arr l => dsimp only at h; cases h
      | obj l => dsimp only at h; cases h

theorem stOf_some_intro (f : HFile) (data : List (String × JVal)) (s : String)
    (hf2 : f.2 = some data) (hst : dGet data "snapshot_time_utc" = some (JVal.str s))
    (hstrip : pyStrip s ≠ "") : stOf f = some s := by
  obtain ⟨fname, content⟩ := f
  cases hf2
  unfold stOf
  dsimp only
  rw [hst]
  dsimp only
  rw [if_neg hstrip]

theorem stCheck_seen_dup (p : String → Bool) (fname : String) (data : List (String × JVal))
    (seen : List (String × String)) (s : String) (f0 : String)
    (hst : dGet data "snapshot_time_utc" = some (JVal.str s)) (hstrip : pyStrip s ≠ "")
    (hl : List.lookup s seen = some f0) :
    (fname, ProblemKind.duplicateSnapshotTime s f0) ∈ (stCheck p fname data seen).1 ∧
    (stCheck p fname data seen).2 = seen := by
  unfold stCheck
  rw [hst]
  dsimp only
  rw [if_neg hstrip, hl]
  dsimp only
  constructor
  · simp
  · rfl

theorem stCheck_seen_register (p : String → Bool) (fname : String)
    (data : List (String × JVal)) (seen : List (String × String)) (s : String)
    (hst : dGet data "snapshot_time_utc" = some (JVal.str s)) (hstrip : pyStrip s ≠ "")
    (hl : List.lookup s seen = none) :
    (stCheck p fname data seen).2 = seen ++ [(s, fname)] := by
  unfold stCheck
  rw [hst]
  dsimp only
  rw [if_neg hstrip, hl]

theorem checkFile_of_content (p : String → Bool) (f : HFile) (data : List (String × JVal))
    (seen : List (String × String)) (hf2 : f.2 = some data) :
    checkFile p f seen =
      ((stCheck p f.1 data seen).1 ++ zonesCheck f.1 data, (stCheck p f.1 data seen).2) := by
  obtain ⟨fname, content⟩ := f
  cases hf2
  rfl

theorem checkFile_seen_cases (p : String → Bool) (f : HFile) (seen : List (String × String)) :
    (checkFile p f seen).2 = seen ∨
    ∃ s, stOf f = some s ∧ List.lookup s seen = none ∧
      (checkFile p f seen).2 = seen ++ [(s, f.1)] := by
  cases hf2 : f.2 with
  | none =>
    left
    obtain ⟨fname, content⟩ := f
    cases hf2
    rfl
  | some data =>
    rw [checkFile_of_content p f data seen hf2]
    rcases stCheck_seen_cases p f.1 data seen with h | ⟨s, hst, hstrip, hl, h⟩
    · exact Or.inl h
    · exact Or.inr ⟨s, stOf_some_intro f data s hf2 hst hstrip, hl, h⟩

theorem checkFile_seen_mono (p : String → Bool) (f : HFile) (seen : List (String × String))
    (s : String) (v : String) (h : List.lookup s seen = some v) :
    List.lookup s (checkFile p f seen).2 = some v := by
  rcases checkFile_seen_cases p f seen with h2 | ⟨t, _, _, h2⟩
  · rw [h2]; exact h
  · rw [h2]; exact lookup_append_of_some _ _ _ _ h

theorem checkFile_registers (p : String → Bool) (f : HFile) (seen : List (String × String))
    (s : String) (h : stOf f = some s) :
    (List.lookup s (checkFile p f seen).2).isSome = true := by
  obtain ⟨data, hf2, hst, hstrip⟩ := stOf_eq_some f s h
  cases hl : List.lookup s seen with
  | some v => rw [checkFile_seen_mono p f seen s v hl]; rfl
  | none =>
    rw [checkFile_of_content p f data seen hf2]
    dsimp only
    rw [stCheck_seen_register p f.1 data seen s hst hstrip hl,
      lookup_append_of_none _ _ _ hl]
    simp [List.lookup]

theorem checkFile_dup (p : String → Bool) (f : HFile) (seen : List (String × String))
    (s : String) (f0 : String) (h : stOf f = some s)
    (hl : List.lookup s seen = some f0) :
    (f.1, ProblemKind.duplicateSnapshotTime s f0) ∈ (checkFile p f seen).1 := by
  obtain ⟨data, hf2, hst, hstrip⟩ := stOf_eq_some f s h
  rw [checkFile_of_content p f data seen hf2]
  dsimp only
  exact List.mem_append_left _ (stCheck_seen_dup p f.1 data seen s f0 hst hstrip hl).1

theorem validateFold_append (p : String → Bool) (fs1 fs2 : List HFile)
    (seen : List (String × String)) :
    validateFold p (fs1 ++ fs2) seen =
      ((validateFold p fs1 seen).1 ++ (validateFold p fs2 (validateFold p fs1 seen).2).1,
       (validateFold p fs2 (validateFold p fs1 seen).2).2) := by
  induction fs1 generalizing seen with
  | nil => simp [validateFold]
  | cons f rest ih =>
    rw [List.cons_append]
    simp only [validateFold]
    rw [ih (checkFile p f seen).2]
    simp [List.append_assoc]

theorem validateFold_seen_mono (p : String → Bool) (fs : List HFile)
    (seen : List (String × String)) (s v : String)
    (h : List.lookup s seen = some v) :
    List.lookup s (validateFold p fs seen).2 = some v := by
  induction fs generalizing seen with
  | nil => exact h
  | cons f rest ih =>
    simp only [validateFold]
    exact ih _ (checkFile_seen_mono p f seen s v h)

theorem validateFold_registers (p : String → Bool) (fs : List HFile)
    (seen : List (String × String)) (s : String) (f : HFile)
    (hf : f ∈ fs) (h : stOf f = some s) :
    (List.lookup s (validateFold p fs seen).2).isSome = true := by
  revert hf
  induction fs generalizing seen with
  | nil =>
    intro hf
    cases hf
  | cons g rest ih =>
    intro hf
    simp only [validateFold]
    rcases List.mem_cons.mp hf with hg | hg
    · subst hg
      cases hl : List.lookup s (checkFile p f seen).2 with
      | some v => rw [validateFold_seen_mono p rest _ s v hl]; rfl
      | none =>
        have hreg := checkFile_registers p f seen s h
        rw [hl] at hreg
        cases hreg
    · exact ih _ hg

theorem mem_insertSortedByKey {α : Type} (key : α → String) (x y : α) (l : List α) :
    y ∈ insertSortedByKey key x l ↔ y = x ∨ y ∈ l := by
  induction l with
  | nil => simp [insertSortedByKey]
  | cons z zs ih =>
    simp only [insertSortedByKey]
    by_cases h : pyStrLt (key z) (key x) = true
    · rw [if_pos h]
      simp only [List.mem_cons, ih]
      tauto
    · rw [if_neg h]
      simp only [List.mem_cons]

theorem mem_sortByKey {α : Type} (key : α → String) (x : α) (l : List α) :
    x ∈ sortByKey key l ↔ x ∈ l := by
  induction l with
  | nil => simp [sortByKey]
  | cons z zs ih =>
    simp only [sortByKey, mem_insertSortedByKey, List.mem_cons, ih]

theorem isEmpty_false_of_mem {α : Type} (l : List α) (x : α) (h : x ∈ l) :
    l.isEmpty = false := by
  cases l with
  | nil => cases h
  | cons a as => rfl

theorem validateFold_mem_all (p : String → Bool) (fs : List HFile)
    (seen : List (String × String)) (f : HFile) (x : Problem)
    (hf : f ∈ fs) (hx : ∀ s0 : List (String × String), x ∈ (checkFile p f s0).1) :
    x ∈ (validateFold p fs seen).1 := by
  revert hf
  induction fs generalizing seen with
  | nil =>
    intro hf
    cases hf
  | cons g rest ih =>
    intro hf
    simp only [validateFold]
    rcases List.mem_cons.mp hf with hg | hg
    · subst hg
      exact List.mem_append_left _ (hx seen)
    · exact List.mem_append_right _ (ih _ hg)

theorem checkZone_zpi_mem (fname : String) (i : ℕ) (fields : List (String × JVal))
    (seen : List String) (q : ℚ)
    (hk1 : (fields.any fun pr => pr.1 = "zone_label") = true)
    (hk2 : (fields.any fun pr => pr.1 = "count") = true)
    (hk3 : (fields.any fun pr => pr.1 = "zpi") = true)
    (hz : List.lookup "zpi" fields = some (JVal.num q))
    (hq : q < 0 ∨ 100 < q) :
    (fname, ProblemKind.zpiOutOfRange i q) ∈ (checkZone fname i (JVal.obj fields) seen).1 := by
  unfold checkZone
  dsimp only
  have hcond : ¬¬(((fields.any fun pr => pr.1 = "zone_label") = true)
      ∧ ((fields.any fun pr => pr.1 = "count") = true)
      ∧ ((fields.any fun pr => pr.1 = "zpi") = true)) :=
    not_not_intro ⟨hk1, hk2, hk3⟩
  rw [if_neg hcond]
  refine List.mem_append_right _ ?_
  rw [hz]
  dsimp only
  rw [if_pos hq]
  exact List.mem_singleton_self _

theorem checkZonesList_mem (fname : String) (zs1 : List JVal) (z : JVal)
    (zs2 : List JVal) (i0 : ℕ) (seen : List String) (k : ℕ → ProblemKind)
    (hx : ∀ (i : ℕ) (s0 : List String), (fname, k i) ∈ (checkZone fname i z s0).1) :
    (fname, k (i0 + zs1.length)) ∈ checkZonesList fname i0 seen (zs1 ++ z :: zs2) := by
  induction zs1 generalizing i0 seen with
  | nil =>
    simp only [List.nil_append, checkZonesList, List.length_nil, Nat.add_zero]
    exact List.mem_append_left _ (hx i0 seen)
  | cons w ws ih =>
    rw [List.cons_append]
    simp only [checkZonesList, List.length_cons]
    refine List.mem_append_right _ ?_
    have h := ih (i0 + 1) (checkZone fname i0 w seen).2
    have harith : i0 + 1 + ws.length = i0 + (ws.length + 1) := by omega
    rw [harith] at h
    exact h

theorem zonesCheck_mem (fname : String) (data : List (String × JVal))
    (zs1 : List JVal) (z : JVal) (zs2 : List JVal) (k : ℕ → ProblemKind)
    (hzf : zonesField data = some (JVal.arr (zs1 ++ z :: zs2)))
    (hx : ∀ (i : ℕ) (s0 : List String), (fname, k i) ∈ (checkZone fname i z s0).1) :
    (fname, k zs1.length) ∈ zonesCheck fname data := by
  unfold zonesCheck
  rw [hzf]
  dsimp only
  have hne : ¬((zs1 ++ z :: zs2).isEmpty = true) := by
    cases zs1 <;> simp
  rw [if_neg hne]
  have h := checkZonesList_mem fname zs1 z zs2 0 [] k hx
  rw [Nat.zero_add] at h
  exact h

/-- C8 amended: (a) the duplicate check is on the GENERATION timestamp
`snapshot_time_utc`, not the source timestamp — whenever two files of
the store (in processed order) register the same non-blank
`snapshot_time_utc` string, the later one is reported as a duplicate;
(b) any stored zone whose `zpi` is a number outside [0, 100] is
reported with its index and value, and problems from every file
accumulate (the validator is a pure fold that never mutates the store);
(c) the tool exits 0 exactly when the problem list is empty; (d) a
store pairing a valid file with one that both repeats its
`snapshot_time_utc` and carries a zpi of 137 yields exactly the two
problems, aggregated in order. -/
theorem C8_validator_amended :
    (∀ (p : String → Bool) (files pre mid post : List HFile) (f1 f2 : HFile) (s : String),
      sortByKey Prod.fst files = pre ++ f1 :: (mid ++ f2 :: post) →
      stOf f1 = some s → stOf f2 = some s →
      ∃ g, (f2.1, ProblemKind.duplicateSnapshotTime s g) ∈ validate_history p true files) ∧
    (∀ (p : String → Bool) (files : List HFile) (f : HFile)
        (data : List (String × JVal)) (zs1 zs2 : List JVal)
        (fields : List (String × JVal)) (q : ℚ),
      f ∈ files → f.2 = some data →
      zonesField data = some (JVal.arr (zs1 ++ JVal.obj fields :: zs2)) →
      (fields.any fun pr => pr.1 = "zone_label") = true →
      (fields.any fun pr => pr.1 = "count") = true →
      (fields.any fun pr => pr.1 = "zpi") = true →
      List.lookup "zpi" fields = some (JVal.num q) →
      q < 0 ∨ 100 < q →
      (f.1, ProblemKind.zpiOutOfRange zs1.length q) ∈ validate_history p true files) ∧
    (∀ (p : String → Bool) (d : Bool) (files : List HFile),
      validate_history_exit p d files = 0 ↔ validate_history p d files = []) ∧
    validate_history (fun _ => true) true [vfile1, vfile3] =
      [("2026-01-03.json",
        ProblemKind.duplicateSnapshotTime "2026-01-01T00:00:00Z" "2026-01-01.json"),
       ("2026-01-03.json", ProblemKind.zpiOutOfRange 0 137)] := by
  refine ⟨?_, ?_, ?_, by decide⟩
  · intro p files pre mid post f1 f2 s hsort h1 h2
    have hmem1 : f1 ∈ sortByKey Prod.fst files := by
      rw [hsort]; simp
    have hfe : files.isEmpty = false :=
      isEmpty_false_of_mem files f1 ((mem_sortByKey Prod.fst f1 files).mp hmem1)
    unfold validate_history
    have hd : ¬¬(true = true) := not_not_intro rfl
    rw [if_neg hd]
    have hnil : ¬(files.isEmpty = true) := by simp [hfe]
    rw [if_neg hnil, hsort]
    have hassoc : pre ++ f1 :: (mid ++ f2 :: post) = (pre ++ f1 :: mid) ++ f2 :: post := by
      simp
    rw [hassoc, validateFold_append]
    have hreg := validateFold_registers p (pre ++ f1 :: mid) [] s f1 (by simp) h1
    cases hg : List.lookup s (validateFold p (pre ++ f1 :: mid) []).2 with
    | none => rw [hg] at hreg; cases hreg
    | some g =>
      refine ⟨g, ?_⟩
      refine List.mem_append_right _ ?_
      simp only [validateFold]
      exact List.mem_append_left _ (checkFile_dup p f2 _ s g h2 hg)
  · intro p files f data zs1 zs2 fields q hf hdata hzf hk1 hk2 hk3 hzpi hq
    have hfe : files.isEmpty = false := isEmpty_false_of_mem files f hf
    unfold validate_history
    have hd : ¬¬(true = true) := not_not_intro rfl
    rw [if_neg hd]
    have hnil : ¬(files.isEmpty = true) := by simp [hfe]
    rw [if_neg hnil]
    refine validateFold_mem_all p _ [] f _ ((mem_sortByKey Prod.fst f files).mpr hf) ?_
    intro s0
    rw [checkFile_of_content p f data s0 hdata]
    refine List.mem_append_right _ ?_
    exact zonesCheck_mem f.1 data zs1 (JVal.obj fields) zs2
      (fun i => ProblemKind.zpiOutOfRange i q) hzf
      (fun i s1 => checkZone_zpi_mem f.1 i fields s1 q hk1 hk2 hk3 hzpi hq)
  · intro p d files
    by_cases h : validate_history p d files = []
    · simp [validate_history_exit, report_exit, h]
    · simp only [validate_history_exit, report_exit]
      rw [if_neg (by simp [List.isEmpty_iff, h])]
      simp [h]

/-- C8 witness: the amended theorem applied to the concrete two-file
store `[vfile1, vfile3]` — the duplicate-generation-timestamp conjunct
at the decomposition `[] ++ vfile1 :: ([] ++ vfile3 :: [])`, and the
zpi conjunct at the 137-valued zone of `vfile3`, with every hypothesis
discharged on the concrete data. -/
theorem C8_validator_witness :
    (sortByKey Prod.fst [vfile1, vfile3] = [] ++ vfile1 :: ([] ++ vfile3 :: []) ∧
     stOf vfile1 = some "2026-01-01T00:00:00Z" ∧
     stOf vfile3 = some "2026-01-01T00:00:00Z") ∧
    (∃ g, (vfile3.1, ProblemKind.duplicateSnapshotTime "2026-01-01T00:00:00Z" g) ∈
      validate_history (fun _ => true) true [vfile1, vfile3]) ∧
    (vfile3.1, ProblemKind.zpiOutOfRange 0 137) ∈
      validate_history (fun _ => true) true [vfile1, vfile3] :=
  ⟨⟨rfl, rfl, rfl⟩,
   C8_validator_amended.1 (fun _ => true) [vfile1, vfile3] [] [] [] vfile1 vfile3
     "2026-01-01T00:00:00Z" rfl rfl rfl,
   C8_validator_amended.2.1 (fun _ => true) [vfile1, vfile3] vfile3 vpayload3 [] []
     [("zone_label", JVal.str "LEO-1"), ("count", JVal.num 12), ("zpi", JVal.num 137)] 137
     (List.mem_cons_of_mem vfile1 (List.mem_singleton_self vfile3)) rfl rfl rfl rfl rfl rfl
     (Or.inr (by norm_num))⟩

/-! ### Helper lemmas for the catalog loader -/

theorem rawGet_some_of_ne (c : Cell) (d : String) (h : c ≠ Cell.pynull) :
    ∃ s, rawGet c d = some s := by
  cases c with
  | absent => exact ⟨d, rfl⟩
  | pynull => exact absurd rfl h
  | pystr s => exact ⟨s, rfl⟩

theorem loadRowStep_pynull (pf : String → Option ℚ) (raw : RawRow)
    (h : raw.object_name = Cell.pynull) : loadRowStep pf raw = none := by
  unfold loadRowStep
  rw [h]
  rfl

theorem loadRowStep_ne_none (pf : String → Option ℚ) (raw : RawRow)
    (nameRaw : String) (h : rawGet raw.object_name "" = some nameRaw) :
    loadRowStep pf raw ≠ none := by
  unfold loadRowStep
  rw [h]
  dsimp only
  cases pyFloatOr pf (rawGet raw.mean_motion "0") with
  | none => simp
  | some mm =>
    dsimp only
    cases pyFloatOr pf (rawGet raw.eccentricity "0") with
    | none => simp
    | some ecc =>
      dsimp only
      by_cases hs : pyStrip nameRaw = ""
      · rw [if_pos hs]; simp
      · rw [if_neg hs]; simp

theorem loadRows_ne_fileNotFound (pf : String → Option ℚ) (rows : List RawRow) :
    loadRows pf rows ≠ Except.error LoadErr.fileNotFound := by
  induction rows with
  | nil => simp [loadRows]
  | cons r rest ih =>
    simp only [loadRows]
    cases h : loadRowStep pf r with
    | none => simp
    | some o =>
      cases o with
      | none => exact ih
      | some rec =>
        cases hr : loadRows pf rest with
        | ok l => simp [Except.map]
        | error e =>
          rw [hr] at ih
          cases e with
          | fileNotFound => exact absurd rfl ih
          | attributeError => simp [Except.map]

theorem loadRows_clean (pf : String → Option ℚ) (rows : List RawRow)
    (h : ∀ r, r ∈ rows → r.object_name ≠ Cell.pynull) :
    loadRows pf rows =
      Except.ok (rows.filterMap fun r => (loadRowStep pf r).join) := by
  induction rows with
  | nil => rfl
  | cons r rest ih =>
    have hr : loadRowStep pf r ≠ none := by
      obtain ⟨s, hs⟩ := rawGet_some_of_ne r.object_name "" (h r (List.mem_cons_self r rest))
      exact loadRowStep_ne_none pf r s hs
    have hrest := ih (fun x hx => h x (List.mem_cons_of_mem r hx))
    simp only [loadRows, List.filterMap_cons]
    cases hstep : loadRowStep pf r with
    | none => exact absurd hstep hr
    | some o =>
      cases o with
      | none =>
        simp only [Option.join]
        rw [hrest]
        rfl
      | some rec =>
        simp only [Option.join]
        rw [hrest]
        rfl

theorem loadRows_crash (pf : String → Option ℚ) (pre : List RawRow) (raw : RawRow)
    (rest : List RawRow) (h : ∀ r, r ∈ pre → r.object_name ≠ Cell.pynull)
    (hraw : raw.object_name = Cell.pynull) :
    loadRows pf (pre ++ raw :: rest) = Except.error LoadErr.attributeError := by
  induction pre with
  | nil =>
    simp only [List.nil_append, loadRows]
    rw [loadRowStep_pynull pf raw hraw]
  | cons g gs ih =>
    have hg : loadRowStep pf g ≠ none := by
      obtain ⟨s, hs⟩ := rawGet_some_of_ne g.object_name "" (h g (List.mem_cons_self g gs))
      exact loadRowStep_ne_none pf g s hs
    have hgs := ih (fun x hx => h x (List.mem_cons_of_mem g hx))
    rw [List.cons_append]
    simp only [loadRows]
    cases hstep : loadRowStep pf g with
    | none => exact absurd hstep hg
    | some o =>
      cases o with
      | none => exact hgs
      | some rec => rw [hgs]; rfl

/-- C9 counterexample: a store whose single row carries `None` in the
`OBJECT_NAME` column (a short CSV data row) is NOT silently dropped —
`raw.get("OBJECT_NAME", "").strip()` raises an `AttributeError` that
the row-level `except (ValueError, TypeError)` does not catch, so the
whole `load_active_catalog()` call aborts with an error instead of
returning the (empty) record list, for every `float()` parser. -/
theorem C9_loader_counterexample :
    (∀ pf : String → Option ℚ,
      load_active_catalog true pf [nullNameRow] = Except.error LoadErr.attributeError) ∧
    nullNameRow.object_name = Cell.pynull :=
  ⟨fun _ => rfl, rfl⟩

/-- C9 amended: (a) `load_active_catalog` fails with the source-missing
error exactly when the backing CSV does not exist; (b) over any row set
whose `OBJECT_NAME` values are never `None`, the claim holds verbatim —
the result is the in-order `filterMap` of the per-row outcome; (c) a
row whose name cell is a present string and whose two numeric fields
parse (missing cells defaulting to the string "0" and `None`/blank
cells to `0.0` before conversion) yields exactly one record carrying
the trimmed name, when that trimmed name is non-empty; (d) a row whose
name is a string but whose trimmed name is empty or either numeric
parse fails is silently dropped; (e) but a row storing `None` under
`OBJECT_NAME` aborts the whole call with an uncaught `AttributeError`
— rows after it produce nothing and the rows before it are lost. -/
theorem C9_loader_amended :
    (∀ (b : Bool) (pf : String → Option ℚ) (rows : List RawRow),
      load_active_catalog b pf rows = Except.error LoadErr.fileNotFound ↔ b = false) ∧
    (∀ (pf : String → Option ℚ) (rows : List RawRow),
      (∀ r, r ∈ rows → r.object_name ≠ Cell.pynull) →
      load_active_catalog true pf rows =
        Except.ok (rows.filterMap fun r => (loadRowStep pf r).join)) ∧
    (∀ (pf : String → Option ℚ) (raw : RawRow) (nameRaw : String) (mm ecc : ℚ),
      rawGet raw.object_name "" = some nameRaw →
      pyFloatOr pf (rawGet raw.mean_motion "0") = some mm →
      pyFloatOr pf (rawGet raw.eccentricity "0") = some ecc →
      pyStrip nameRaw ≠ "" →
      loadRowStep pf raw = some (some ⟨pyStrip nameRaw, mm, ecc⟩)) ∧
    (∀ (pf : String → Option ℚ) (raw : RawRow) (nameRaw : String),
      rawGet raw.object_name "" = some nameRaw →
      (pyStrip nameRaw = "" ∨ pyFloatOr pf (rawGet raw.mean_motion "0") = none ∨
        pyFloatOr pf (rawGet raw.eccentricity "0") = none) →
      loadRowStep pf raw = some none) ∧
    (∀ (pf : String → Option ℚ) (pre : List RawRow) (raw : RawRow) (rest : List RawRow),
      (∀ r, r ∈ pre → r.object_name ≠ Cell.pynull) →
      raw.object_name = Cell.pynull →
      load_active_catalog true pf (pre ++ raw :: rest) =
        Except.error LoadErr.attributeError) := by
  refine ⟨?_, ?_, ?_, ?_, ?_⟩
  · intro b pf rows
    cases b with
    | false => simp [load_active_catalog]
    | true =>
      simp only [load_active_catalog]
      rw [if_neg (not_not_intro trivial)]
      simp [loadRows_ne_fileNotFound pf rows]
  · intro pf rows h
    simp only [load_active_catalog]
    rw [if_neg (not_not_intro trivial)]
    exact loadRows_clean pf rows h
  · intro pf raw nameRaw mm ecc hname hmm hecc hstrip
    unfold loadRowStep
    rw [hname]
    dsimp only
    rw [hmm]
    dsimp only
    rw [hecc]
    dsimp only
    rw [if_neg hstrip]
  · intro pf raw nameRaw hname hdrop
    unfold loadRowStep
    rw [hname]
    dsimp only
    cases hmm : pyFloatOr pf (rawGet raw.mean_motion "0") with
    | none => rfl
    | some mm =>
      dsimp only
      cases hecc : pyFloatOr pf (rawGet raw.eccentricity "0") with
      | none => rfl
      | some ecc =>
        dsimp only
        rcases hdrop with hs | hm | he
        · rw [if_pos hs]
        · rw [hmm] at hm; cases hm
        · rw [hecc] at he; cases he
  · intro pf pre raw rest h hraw
    simp only [load_active_catalog]
    rw [if_neg (not_not_intro trivial)]
    exact loadRows_crash pf pre raw rest h hraw

/-- C9 witness: the amended theorem applied on concrete data — the
missing source file, the three demo rows (one good, one blank-name, one
unparseable mean motion) producing exactly the one good record, the
per-row keep and drop cases, and the aborting `None`-name store. -/
theorem C9_loader_witness :
    load_active_catalog false demoPyFloat demoRawRows = Except.error LoadErr.fileNotFound ∧
    load_active_catalog true demoPyFloat demoRawRows =
      Except.ok (demoRawRows.filterMap fun r => (loadRowStep demoPyFloat r).join) ∧
    demoRawRows.filterMap (fun r => (loadRowStep demoPyFloat r).join) =
      [⟨"SAT A", 15, 0⟩] ∧
    loadRowStep demoPyFloat ⟨Cell.pystr "SAT A", Cell.pystr "15.0", Cell.pystr "0"⟩ =
      some (some ⟨"SAT A", 15, 0⟩) ∧
    loadRowStep demoPyFloat ⟨Cell.pystr "SAT B", Cell.pystr "not-a-number", Cell.pystr "0"⟩ =
      some none ∧
    load_active_catalog true demoPyFloat
        ([⟨Cell.pystr "SAT A", Cell.pystr "15.0", Cell.pystr "0"⟩] ++ nullNameRow :: []) =
      Except.error LoadErr.attributeError := by
  refine ⟨?_, ?_, by decide, ?_, ?_, ?_⟩
  · exact (C9_loader_amended.1 false demoPyFloat demoRawRows).mpr rfl
  · refine C9_loader_amended.2.1 demoPyFloat demoRawRows ?_
    intro r hr
    fin_cases hr <;> decide
  · exact C9_loader_amended.2.2.1 demoPyFloat
      ⟨Cell.pystr "SAT A", Cell.pystr "15.0", Cell.pystr "0"⟩ "SAT A" 15 0
      rfl rfl rfl (by decide)
  · exact C9_loader_amended.2.2.2.1 demoPyFloat
      ⟨Cell.pystr "SAT B", Cell.pystr "not-a-number", Cell.pystr "0"⟩ "SAT B"
      rfl (Or.inr (Or.inl rfl))
  · exact C9_loader_amended.2.2.2.2 demoPyFloat
      [⟨Cell.pystr "SAT A", Cell.pystr "15.0", Cell.pystr "0"⟩] nullNameRow []
      (by intro r hr; fin_cases hr; decide) rfl

end ORA
